import Mathlib

/-! Object-storage access-log generator: configuration model, synthesis engine
and scheduling process.

A shallow embedding of `internal/config/config.go`,
`internal/generator/log_generator.go` and the goroutines of
`cmd/log-generator/main.go`.

Modelling conventions

* Go `float64` values are exact rationals (`ℚ`); NaN and the infinities are not
  represented, and arithmetic does not round.
* Go `int` is `Int` (no arithmetic on it can overflow in the modelled code).
* A Go map is an association list (`GoMap`).  `len` is the length of the list,
  indexing returns the zero value for a missing key.  The order in which a
  `range` loop visits a map is not a property of the map: it is supplied, loop
  by loop, by the `Runtime`.
* A `*Config` is an address into a `Heap` of `Config` values, so that the
  in-place assignment of `ReloadConfig` is visible through every alias.
* `error` values are their messages; `none` is `nil`.
* A run-time panic (index out of range, `Intn` of a non-positive bound) is
  `none` in the `Option` result of the function that can raise it.
-/

namespace S3LogGen

/-! ## Go maps -/

/-- A Go map, as the list of its key/value entries. -/
abbrev GoMap (κ : Type) (ν : Type) := List (κ × ν)

/-- The map index expression `m[k]` for a numeric value type: the value stored
under `k`, or the zero value when `k` is missing. -/
def GoMap.index {κ : Type} [DecidableEq κ] : GoMap κ ℚ → κ → ℚ
  | [], _ => 0
  | (k, v) :: rest, key => if k = key then v else GoMap.index rest key

/-- The keys of a map. -/
def GoMap.keys {κ ν : Type} (m : GoMap κ ν) : List κ := m.map Prod.fst

/-! ## internal/config/config.go -/

structure KafkaConfig where
  Brokers : List String
  Topic : String
  deriving DecidableEq, Repr

structure OutputConfig where
  Kafka : KafkaConfig
  deriving DecidableEq, Repr

structure DurationConfig where
  SuccessMin : ℚ
  SuccessMax : ℚ
  ErrorMin : ℚ
  ErrorMax : ℚ
  deriving DecidableEq, Repr

structure DefaultsConfig where
  ErrorPercent : ℚ
  ErrorStatusDistribution : GoMap Int ℚ
  Duration : DurationConfig
  deriving DecidableEq, Repr

structure ProblematicBucket where
  Name : String
  ErrorMultiplier : ℚ
  DurationMultiplier : ℚ
  ErrorStatusDistribution : GoMap Int ℚ
  deriving DecidableEq, Repr

structure GeneratorConfig where
  Rate : Int
  OutputFormat : String
  Output : OutputConfig
  OperationWeights : GoMap String ℚ
  Defaults : DefaultsConfig
  ProblematicBuckets : List ProblematicBucket
  deriving DecidableEq, Repr

structure Config where
  Generator : GeneratorConfig
  deriving DecidableEq, Repr

/-- The fallback error-status distribution written by `validateAndSetDefaults`. -/
def defaultErrorStatusDistribution : GoMap Int ℚ :=
  [(404, 40), (500, 30), (504, 20), (403, 10)]

/-- The defaulting pass `validateAndSetDefaults(cfg *Config) error`: the
updated configuration and the returned error. -/
def validateAndSetDefaults (cfg : Config) : Config × Option String :=
  let g := cfg.Generator
  let g := if g.Rate ≤ 0 then { g with Rate := 10 } else g
  let g := if g.OutputFormat = "" then { g with OutputFormat := "json" } else g
  let d := g.Defaults
  let d := if d.ErrorPercent = 0 then { d with ErrorPercent := 5 } else d
  let d := if d.ErrorStatusDistribution.length = 0 then
      { d with ErrorStatusDistribution := defaultErrorStatusDistribution } else d
  let t := d.Duration
  let t := if t.SuccessMin = 0 then { t with SuccessMin := 5 / 100 } else t
  let t := if t.SuccessMax = 0 then { t with SuccessMax := 5 / 10 } else t
  let t := if t.ErrorMin = 0 then { t with ErrorMin := 1 / 100 } else t
  let t := if t.ErrorMax = 0 then { t with ErrorMax := 2 / 10 } else t
  ({ Generator := { g with Defaults := { d with Duration := t } } }, none)

/-- The contents of a file, as a list of byte values. -/
abbrev FileData := List Nat

/-- The collaborators of `LoadConfig` outside the repository: `os.ReadFile`
and `yaml.Unmarshal` into a zero-valued `Config`. -/
structure Loader where
  readFile : String → Except String FileData
  unmarshal : FileData → Except String Config

/-- The function `LoadConfig(path string) (*Config, error)`; the returned
pointer is to a freshly allocated value, given here by that value. -/
def LoadConfig (env : Loader) (path : String) : Except String Config :=
  match env.readFile path with
  | .error err => .error ("failed to read config file: " ++ err)
  | .ok data =>
    match env.unmarshal data with
    | .error err => .error ("failed to parse config: " ++ err)
    | .ok config =>
      match validateAndSetDefaults config with
      | (_, some err) => .error err
      | (config, none) => .ok config

/-- The loop of `GetProblematicBucket` over the override list. -/
def GetProblematicBucket.loop (name : String) :
    List ProblematicBucket → Option ProblematicBucket
  | [] => none
  | b :: rest => if b.Name = name then some b else GetProblematicBucket.loop name rest

/-- The method `(c *Config) GetProblematicBucket(name string) *ProblematicBucket`,
on the value `c` points to; `none` is the nil pointer. -/
def Config.GetProblematicBucket (c : Config) (name : String) : Option ProblematicBucket :=
  GetProblematicBucket.loop name c.Generator.ProblematicBuckets

/-- An address of a `Config` value. -/
abbrev Addr := Nat

/-- The `Config` values reachable through pointers. -/
abbrev Heap := Addr → Config

/-- The method `(c *Config) ReloadConfig(path string) error`: the memory after
the call and the returned error. -/
def ReloadConfig (env : Loader) (mem : Heap) (c : Addr) (path : String) :
    Heap × Option String :=
  match LoadConfig env path with
  | .error err => (mem, some err)
  | .ok newConfig => (Function.update mem c newConfig, none)

/-! ## Sources of nondeterminism -/

/-- One step of a `math/rand` source: what `Float64()` returns if it is the
next call, and the raw integer from which `Intn(n)` takes its result. -/
structure Draw where
  float : ℚ
  int : Nat

/-- A `*rand.Rand`: the stream of draws still to come. -/
structure Rng where
  draws : Nat → Draw

/-- The source after one call. -/
def Rng.advance (r : Rng) : Rng := ⟨fun i => r.draws (i + 1)⟩

/-- The call `rng.Float64()`. -/
def Rng.Float64 (r : Rng) : ℚ × Rng := ((r.draws 0).float, r.advance)

/-- The call `rng.Intn(n)`, which panics when `n <= 0`. -/
def Rng.Intn (r : Rng) (n : Nat) : Option (Nat × Rng) :=
  if n = 0 then none else some ((r.draws 0).int % n, r.advance)

/-- Every `Float64()` result of the source lies in `[0, 1)`. -/
def Rng.Unit (r : Rng) : Prop := ∀ i, 0 ≤ (r.draws i).float ∧ (r.draws i).float < 1

/-- What the Go runtime and the operating system decide: the order in which
each successive `range` loop visits a map, the values of successive
`uuid.New().String()` calls, the hex strings of successive `crypto/rand`
reads, and the formatted results of successive `time.Now()` calls. -/
structure Runtime where
  mapOrder : Nat → GoMap Int ℚ → List (Int × ℚ)
  uuids : Nat → String
  hexIDs : Nat → String
  clock : Nat → String

/-- Each `range` loop visits every entry of the map exactly once. -/
def Runtime.Fair (rt : Runtime) : Prop := ∀ k m, (rt.mapOrder k m).Perm m

/-- The entries of `m` in the order the next `range` loop visits them. -/
def Runtime.rangeMap (rt : Runtime) (m : GoMap Int ℚ) : List (Int × ℚ) × Runtime :=
  (rt.mapOrder 0 m, { rt with mapOrder := fun k => rt.mapOrder (k + 1) })

/-- The call `uuid.New().String()`. -/
def Runtime.newUUID (rt : Runtime) : String × Runtime :=
  (rt.uuids 0, { rt with uuids := fun k => rt.uuids (k + 1) })

/-- The call `time.Now().UTC().Format("2006-01-02T15:04:05.000Z")`. -/
def Runtime.timestamp (rt : Runtime) : String × Runtime :=
  (rt.clock 0, { rt with clock := fun k => rt.clock (k + 1) })

/-! ## internal/generator/log_generator.go -/

structure LogEntry where
  Timestamp : String
  Level : String
  Msg : String
  RequestID : String
  RemoteHost : String
  Method : String
  Host : String
  URI : String
  Namespace : String
  Duration : ℚ
  API : String
  User : String
  Status : Int
  Bucket : String
  Object : String
  deriving DecidableEq, Repr

structure OperationInfo where
  API : String
  Method : String
  HasBucket : Bool
  HasObject : Bool
  deriving DecidableEq, Repr

structure LogGenerator where
  cfg : Addr
  rng : Rng
  operations : List OperationInfo
  operationWeights : List ℚ
  totalWeight : ℚ
  buckets : List String
  users : List String
  hosts : List String
  ips : List String

/-- The literal `operations` of `initOperations`. -/
def operationCatalog : List OperationInfo :=
  [⟨"GetObject", "GET", true, true⟩,
   ⟨"PutObject", "PUT", true, true⟩,
   ⟨"DeleteObject", "DELETE", true, true⟩,
   ⟨"HeadObject", "HEAD", true, true⟩,
   ⟨"CopyObject", "PUT", true, true⟩,
   ⟨"ListParts", "GET", true, true⟩,
   ⟨"CreateMultipartUpload", "POST", true, true⟩,
   ⟨"UploadPart", "PUT", true, true⟩,
   ⟨"CompleteMultipartUpload", "POST", true, true⟩,
   ⟨"AbortMultipartUpload", "DELETE", true, true⟩,
   ⟨"ListBuckets", "GET", false, false⟩,
   ⟨"ListObjectsV2", "GET", true, false⟩,
   ⟨"ListObjectsV1", "GET", true, false⟩,
   ⟨"CreateBucket", "PUT", true, false⟩,
   ⟨"DeleteBucket", "DELETE", true, false⟩,
   ⟨"HeadBucket", "HEAD", true, false⟩]

/-- The loop `for i, op := range operations` of `initOperations`, from index
`i` on: the weight slice and the running total. -/
def initOperations.loop (configured : GoMap String ℚ) :
    List OperationInfo → Nat → List ℚ × ℚ → List ℚ × ℚ
  | [], _, acc => acc
  | op :: rest, i, (weights, total) =>
    let weight := configured.index op.API
    let weight := if weight = 0 then 1 else weight
    initOperations.loop configured rest (i + 1) (weights.set i weight, total + weight)

/-- The method `(lg *LogGenerator) initOperations()`. -/
def initOperations (mem : Heap) (lg : LogGenerator) : LogGenerator :=
  let operations := operationCatalog
  let acc := initOperations.loop (mem lg.cfg).Generator.OperationWeights operations 0
    (List.replicate operations.length 0, 0)
  { lg with operations := operations, operationWeights := acc.1, totalWeight := acc.2 }

/-- The method `generateUserID`: 32 bytes of `crypto/rand`, hex-encoded. -/
def generateUserID (rt : Runtime) : String × Runtime :=
  (rt.hexIDs 0, { rt with hexIDs := fun k => rt.hexIDs (k + 1) })

/-- The loop `for i := 0; i < 20; i++` of `initData`, with `n` rounds left. -/
def initData.loop : Nat → Nat → List String → Runtime → List String × Runtime
  | 0, _, users, rt => (users, rt)
  | n + 1, i, users, rt =>
    let (id, rt) := generateUserID rt
    initData.loop n (i + 1) (users.set i id) rt

/-- The method `(lg *LogGenerator) initData()`. -/
def initData (lg : LogGenerator) (rt : Runtime) : LogGenerator × Runtime :=
  let (users, rt) := initData.loop 20 0 (List.replicate 20 "") rt
  ({ lg with
      buckets := ["data-bucket", "backup-bucket", "logs-bucket", "temp-bucket",
        "archive-bucket", "broken-shard-bucket", "slow-sync-bucket",
        "production-bucket", "staging-bucket", "test-bucket"],
      users := users,
      hosts := ["s3.example.com", "s3-gw.production.local",
        "storage.company.com", "object-store.internal"],
      ips := ["192.168.1.100", "10.0.0.50", "172.16.0.25",
        "10.178.152.209", "192.168.1.200", "10.0.0.75",
        "172.16.0.100", "192.168.1.150"] }, rt)

/-- The constructor `NewLogGenerator(cfg *Config)`; `rng` is the source that
seeding with the current time yields. -/
def NewLogGenerator (mem : Heap) (cfg : Addr) (rng : Rng) (rt : Runtime) :
    LogGenerator × Runtime :=
  let lg : LogGenerator :=
    { cfg := cfg, rng := rng, operations := [], operationWeights := [], totalWeight := 0,
      buckets := [], users := [], hosts := [], ips := [] }
  let lg := initOperations mem lg
  initData lg rt

/-- The loop of `selectOperation` from index `i` on, with running sum `sum`:
the index at which it returns, or `none` when it runs off the end. -/
def selectOperation.loop (r : ℚ) : List ℚ → Nat → ℚ → Option Nat
  | [], _, _ => none
  | weight :: rest, i, sum =>
    let sum := sum + weight
    if r ≤ sum then some i else selectOperation.loop r rest (i + 1) sum

/-- The method `(lg *LogGenerator) selectOperation() OperationInfo`. -/
def selectOperation (lg : LogGenerator) : Option (OperationInfo × LogGenerator) :=
  let (u, rng) := lg.rng.Float64
  let lg := { lg with rng := rng }
  let r := u * lg.totalWeight
  match selectOperation.loop r lg.operationWeights 0 0 with
  | some i => (lg.operations[i]?).map fun op => (op, lg)
  | none => (lg.operations[0]?).map fun op => (op, lg)

/-- The method `(lg *LogGenerator) selectBucket() string`. -/
def selectBucket (lg : LogGenerator) : Option (String × LogGenerator) := do
  let (i, rng) ← lg.rng.Intn lg.buckets.length
  let bucket ← lg.buckets[i]?
  pure (bucket, { lg with rng := rng })

/-- The literal `paths` of `generateObjectPath`. -/
def objectPaths : List String :=
  ["file.pdf", "image.jpg", "data.json", "video.mp4",
   "document.docx", "archive.zip", "log.txt", "backup.tar.gz",
   "path/to/file.txt", "uploads/2024/01/image.png",
   "legacy/old-file.dat", "temp/data.bin"]

/-- The method `(lg *LogGenerator) generateObjectPath(bucket string) string`. -/
def generateObjectPath (lg : LogGenerator) (_bucket : String) :
    Option (String × LogGenerator) := do
  let paths := objectPaths
  let (i, rng) ← lg.rng.Intn paths.length
  let path ← paths[i]?
  pure (path, { lg with rng := rng })

/-- The second loop of `selectStatusFromDistribution` over the entries in
visiting order: the status it returns, or `none` when it runs off the end. -/
def selectStatusFromDistribution.loop (r : ℚ) : List (Int × ℚ) → ℚ → Option Int
  | [], _ => none
  | (status, weight) :: rest, sum =>
    let sum := sum + weight
    if r ≤ sum then some status else selectStatusFromDistribution.loop r rest sum

/-- The method `selectStatusFromDistribution(dist map[int]float64) int`. -/
def selectStatusFromDistribution (lg : LogGenerator) (rt : Runtime) (dist : GoMap Int ℚ) :
    Int × LogGenerator × Runtime :=
  let (visit, rt) := rt.rangeMap dist
  let total := visit.foldl (fun total e => total + e.2) 0
  let (u, rng) := lg.rng.Float64
  let lg := { lg with rng := rng }
  let r := u * total
  let (visit, rt) := rt.rangeMap dist
  match selectStatusFromDistribution.loop r visit 0 with
  | some status => (status, lg, rt)
  | none =>
    let (visit, rt) := rt.rangeMap dist
    match visit with
    | (status, _) :: _ => (status, lg, rt)
    | [] => (500, lg, rt)

/-- The method `determineStatus(problematic *ProblematicBucket) (bool, int)`. -/
def determineStatus (mem : Heap) (lg : LogGenerator) (rt : Runtime)
    (problematic : Option ProblematicBucket) : (Bool × Int) × LogGenerator × Runtime :=
  let errorPercent := (mem lg.cfg).Generator.Defaults.ErrorPercent
  let errorPercent :=
    match problematic with
    | some p => errorPercent * p.ErrorMultiplier
    | none => errorPercent
  let (u, rng) := lg.rng.Float64
  let lg := { lg with rng := rng }
  if u * 100 < errorPercent then
    let dist := (mem lg.cfg).Generator.Defaults.ErrorStatusDistribution
    let dist :=
      match problematic with
      | some p => if p.ErrorStatusDistribution.length > 0 then p.ErrorStatusDistribution else dist
      | none => dist
    let (status, lg, rt) := selectStatusFromDistribution lg rt dist
    ((true, status), lg, rt)
  else
    let (u, rng) := lg.rng.Float64
    let lg := { lg with rng := rng }
    let status : Int := if u < 1 / 10 then 204 else 200
    ((false, status), lg, rt)

/-- The method `generateDuration(isError bool, problematic *ProblematicBucket) float64`. -/
def generateDuration (mem : Heap) (lg : LogGenerator) (isError : Bool)
    (problematic : Option ProblematicBucket) : ℚ × LogGenerator :=
  let d := (mem lg.cfg).Generator.Defaults.Duration
  let (min, max) := if isError then (d.ErrorMin, d.ErrorMax) else (d.SuccessMin, d.SuccessMax)
  let (u, rng) := lg.rng.Float64
  let duration := min + u * (max - min)
  let duration :=
    match problematic with
    | some p => duration * p.DurationMultiplier
    | none => duration
  (duration, { lg with rng := rng })

/-- The method `buildURI(op OperationInfo, bucket, object string) string`. -/
def buildURI (lg : LogGenerator) (rt : Runtime) (op : OperationInfo) (bucket object : String) :
    Option (String × LogGenerator × Runtime) :=
  if !op.HasBucket then some ("/", lg, rt) else
  let uri := "/" ++ bucket
  let uri := if op.HasObject && object ≠ "" then uri ++ "/" ++ object else uri
  if op.API = "ListObjectsV2" then some (uri ++ "?list-type=2&max-keys=1000", lg, rt)
  else if op.API = "ListObjectsV1" then some (uri ++ "?max-keys=1000", lg, rt)
  else if op.API = "UploadPart" then
    match lg.rng.Intn 10 with
    | none => none
    | some (n, rng) =>
      let (id, rt) := rt.newUUID
      some (uri ++ "?partNumber=" ++ toString (n + 1) ++ "&uploadId=" ++ id,
        { lg with rng := rng }, rt)
  else if op.API = "CreateMultipartUpload" then some (uri ++ "?uploads", lg, rt)
  else if op.API = "CompleteMultipartUpload" ∨ op.API = "AbortMultipartUpload" then
    let (id, rt) := rt.newUUID
    some (uri ++ "?uploadId=" ++ id, lg, rt)
  else some (uri, lg, rt)

/-- The method `(lg *LogGenerator) selectUser() string`. -/
def selectUser (lg : LogGenerator) : Option (String × LogGenerator) := do
  let (i, rng) ← lg.rng.Intn lg.users.length
  let user ← lg.users[i]?
  pure (user, { lg with rng := rng })

/-- The method `(lg *LogGenerator) selectHost() string`. -/
def selectHost (lg : LogGenerator) : Option (String × LogGenerator) := do
  let (i, rng) ← lg.rng.Intn lg.hosts.length
  let host ← lg.hosts[i]?
  pure (host, { lg with rng := rng })

/-- The method `(lg *LogGenerator) selectIP() string`. -/
def selectIP (lg : LogGenerator) : Option (String × LogGenerator) := do
  let (i, rng) ← lg.rng.Intn lg.ips.length
  let ip ← lg.ips[i]?
  pure (ip, { lg with rng := rng })

/-- The function `math.Round`: to the nearest integer, halves away from zero. -/
def mathRound (x : ℚ) : ℚ :=
  if 0 ≤ x then (⌊x + 1 / 2⌋ : ℤ) else -((⌊-x + 1 / 2⌋ : ℤ) : ℚ)

/-- The bucket and object that `GenerateLog` draws for the operation. -/
def GenerateLog.target (lg : LogGenerator) (op : OperationInfo) :
    Option (String × String × LogGenerator) :=
  if op.HasBucket then
    match selectBucket lg with
    | none => none
    | some (bucket, lg) =>
      if op.HasObject then
        match generateObjectPath lg bucket with
        | none => none
        | some (object, lg) => some (bucket, object, lg)
      else some (bucket, "", lg)
  else some ("", "", lg)

/-- The method `(lg *LogGenerator) GenerateLog() (*LogEntry, error)`. -/
def GenerateLog (mem : Heap) (lg : LogGenerator) (rt : Runtime) :
    Option ((LogEntry × Option String) × LogGenerator × Runtime) := do
  let (op, lg) ← selectOperation lg
  let (bucket, object, lg) ← GenerateLog.target lg op
  let problematic := (mem lg.cfg).GetProblematicBucket bucket
  let ((isError, status), lg, rt) := determineStatus mem lg rt problematic
  let level := if status ≥ 500 ∨ status = 401 then "error" else "info"
  let (duration, lg) := generateDuration mem lg isError problematic
  let (uri, lg, rt) ← buildURI lg rt op bucket object
  let (user, lg) ← selectUser lg
  let (timestamp, rt) := rt.timestamp
  let (requestID, rt) := rt.newUUID
  let (ip, lg) ← selectIP lg
  let (host, lg) ← selectHost lg
  let entry : LogEntry :=
    { Timestamp := timestamp, Level := level, Msg := "request", RequestID := requestID,
      RemoteHost := ip, Method := op.Method, Host := host, URI := uri, Namespace := "",
      Duration := mathRound (duration * 1000) / 1000, API := op.API, User := user,
      Status := status, Bucket := "", Object := "" }
  let entry := if bucket ≠ "" then { entry with Bucket := bucket } else entry
  let entry := if object ≠ "" then { entry with Object := object } else entry
  pure ((entry, none), lg, rt)

/-- A value that `json.Marshal` writes for a field of `LogEntry`. -/
inductive JSONValue where
  | string (s : String)
  | float (x : ℚ)
  | int (n : Int)
  deriving DecidableEq, Repr

/-- The method `(e *LogEntry) ToJSON()`, up to the rendering of the object as
text: the members `json.Marshal` writes, named by the struct tags in the order
of the fields; a field tagged `omitempty` is left out when it is empty. -/
def LogEntry.ToJSON (e : LogEntry) : List (String × JSONValue) :=
  [("timestamp", .string e.Timestamp), ("level", .string e.Level), ("msg", .string e.Msg),
   ("request_id", .string e.RequestID), ("remote_host", .string e.RemoteHost),
   ("method", .string e.Method), ("host", .string e.Host), ("uri", .string e.URI),
   ("namespace", .string e.Namespace), ("duration", .float e.Duration),
   ("api", .string e.API), ("user", .string e.User), ("status", .int e.Status)]
  ++ (if e.Bucket = "" then [] else [("bucket", .string e.Bucket)])
  ++ (if e.Object = "" then [] else [("object", .string e.Object)])

/-! ## cmd/log-generator/main.go -/

/-- The constant `time.Second`, in nanoseconds. -/
def timeSecond : Int := 1000000000

/-- The expression `time.Second / time.Duration(rate)`: integer division, which
truncates toward zero and panics on a zero divisor. -/
def tickInterval (rate : Int) : Option Int :=
  if rate = 0 then none else some (Int.tdiv timeSecond rate)

/-- The calls `time.NewTicker(d)` and `ticker.Reset(d)`: a panic when `d <= 0`,
otherwise a ticker of period `d`. -/
def NewTicker (d : Int) : Option Int := if d ≤ 0 then none else some d

/-- What an attempt to run one step of a goroutine comes to. -/
inductive Outcome (α : Type) where
  | next (a : α)
  | waits
  | panics
  | fatal (msg : String)

/-- The state that the goroutines of `main` share and own: memory, the
variable `cfg`, the channel `reloadCh` of capacity 1, whether the reloading
goroutine stands before its send, the variables `currentGen` and the ticker
period of the generating goroutine, and the entries handed to the writer. -/
structure Process where
  mem : Heap
  cfg : Addr
  reloadCh : List Addr
  sending : Bool
  currentGen : LogGenerator
  period : Int
  rt : Runtime
  written : List LogEntry

/-- The function `main` up to the start of its goroutines, with the loaded
configuration placed at the fresh address `c`; the choice of the writer is
left out. -/
def Process.start (env : Loader) (path : String) (mem : Heap) (c : Addr) (rng : Rng)
    (rt : Runtime) : Outcome Process :=
  if path = "" then .fatal "Error: --config flag is required." else
  match LoadConfig env path with
  | .error err => .fatal ("Failed to load config: " ++ err)
  | .ok config =>
    let mem := Function.update mem c config
    let (logGen, rt) := NewLogGenerator mem c rng rt
    match tickInterval (mem c).Generator.Rate with
    | none => .panics
    | some d =>
      match NewTicker d with
      | none => .panics
      | some period =>
        .next { mem := mem, cfg := c, reloadCh := [], sending := false, currentGen := logGen,
                period := period, rt := rt, written := [] }

/-- The case `<-sigCh` of the reloading goroutine, up to its send:
`cfg.ReloadConfig(*configPath)`. -/
def Process.sighup (env : Loader) (path : String) (p : Process) : Outcome Process :=
  if p.sending then .waits else
  match ReloadConfig env p.mem p.cfg path with
  | (mem, some _) => .next { p with mem := mem }
  | (mem, none) => .next { p with mem := mem, sending := true }

/-- The send `reloadCh <- cfg` of the reloading goroutine, which waits while
the channel is full. -/
def Process.send (p : Process) : Outcome Process :=
  if p.sending ∧ p.reloadCh.length < 1 then
    .next { p with reloadCh := p.reloadCh ++ [p.cfg], sending := false }
  else .waits

/-- The case `newCfg := <-reloadCh` of the generating goroutine; `rng` is the
source that seeding with the current time yields. -/
def Process.receive (rng : Rng) (p : Process) : Outcome Process :=
  match p.reloadCh with
  | [] => .waits
  | newCfg :: rest =>
    let (gen, rt) := NewLogGenerator p.mem newCfg rng p.rt
    match tickInterval (p.mem newCfg).Generator.Rate with
    | none => .panics
    | some d =>
      match NewTicker d with
      | none => .panics
      | some period =>
        .next { p with reloadCh := rest, currentGen := gen, period := period, rt := rt }

/-- The case `<-ticker.C` of the generating goroutine. -/
def Process.tick (p : Process) : Outcome Process :=
  match GenerateLog p.mem p.currentGen p.rt with
  | none => .panics
  | some ((_, some _), gen, rt) => .next { p with currentGen := gen, rt := rt }
  | some ((entry, none), gen, rt) =>
    .next { p with currentGen := gen, rt := rt, written := p.written ++ [entry] }

/-! ## Sample inputs -/

/-- The zero value of `Config`: nothing is set. -/
def zeroConfig : Config :=
  ⟨⟨0, "", ⟨⟨[], ""⟩⟩, [], ⟨0, [], ⟨0, 0, 0, 0⟩⟩, []⟩⟩

/-- A source whose every `Float64()` is `u` and whose every raw integer is `n`. -/
def constRng (u : ℚ) (n : Nat) : Rng := ⟨fun _ => ⟨u, n⟩⟩

/-- A runtime that visits every map in its listed order and hands out fixed
identifiers and times. -/
def plainRuntime : Runtime :=
  ⟨fun _ m => m, fun _ => "00000000-0000-4000-8000-000000000000", fun _ => "00",
   fun _ => "2024-01-01T00:00:00.000Z"⟩

/-- A generator value on which no initialisation has run yet. -/
def blankGenerator (cfg : Addr) (rng : Rng) : LogGenerator :=
  { cfg := cfg, rng := rng, operations := [], operationWeights := [], totalWeight := 0,
    buckets := [], users := [], hosts := [], ips := [] }

/-- A configuration that sets the weight of `GetObject` to zero. -/
def zeroWeightConfig : Config :=
  { zeroConfig with Generator.OperationWeights := [("GetObject", 0)] }

/-- The override of the specification's duration scenario: only the name and
the duration multiplier are set. -/
def slowSyncBucket : ProblematicBucket := ⟨"slow-sync-bucket", 0, 5, []⟩

/-- An override that doubles the error rate and has no distribution of its own. -/
def brokenShardBucket : ProblematicBucket := ⟨"broken-shard-bucket", 2, 1, []⟩

/-- A validated configuration with `ErrorPercent` 100, the distribution
`500: 100` and the override `slowSyncBucket`. -/
def fullErrorConfig : Config :=
  { Generator :=
      { Rate := 10, OutputFormat := "json", Output := ⟨⟨[], ""⟩⟩, OperationWeights := [],
        Defaults :=
          { ErrorPercent := 100, ErrorStatusDistribution := [(500, 100)],
            Duration := ⟨5 / 100, 5 / 10, 1 / 100, 2 / 10⟩ },
        ProblematicBuckets := [slowSyncBucket] } }

/-- A configuration value on which the defaulting pass has not run: only
`ErrorPercent` is set, to 100. -/
def bareErrorConfig : Config :=
  { zeroConfig with Generator.Defaults.ErrorPercent := 100 }

/-- A loader that knows one file, `config.yaml`, which sets nothing. -/
def sampleLoader : Loader :=
  { readFile := fun path => if path = "config.yaml" then .ok [] else .error "no such file",
    unmarshal := fun _ => .ok zeroConfig }

/-- A validated configuration whose success range is inverted: minimum 1,
maximum 1/2. -/
def invertedRangeConfig : Config :=
  { fullErrorConfig with
    Generator.Defaults.Duration := ⟨1, 1 / 2, 1 / 100, 2 / 10⟩,
    Generator.ProblematicBuckets := [] }

/-- An override with a negative duration multiplier. -/
def negativeDurationBucket : ProblematicBucket := ⟨"slow-sync-bucket", 1, -1, []⟩

/-- A parsed configuration with a negative error percentage and a negative
success minimum. -/
def negativeConfig : Config :=
  { zeroConfig with
    Generator.Defaults.ErrorPercent := -5,
    Generator.Defaults.Duration := ⟨-1, 0, 0, 0⟩ }

/-- The configuration literal of the specification's error scenario: `Rate` 10,
`ErrorPercent` 100, the distribution `500: 100`, nothing else set. -/
def pureErrorConfig : Config :=
  { zeroConfig with
    Generator.Rate := 10,
    Generator.Defaults.ErrorPercent := 100,
    Generator.Defaults.ErrorStatusDistribution := [(500, 100)] }

/-- A runtime that visits every map in the reverse of its listed order. -/
def reverseRuntime : Runtime := { plainRuntime with mapOrder := fun _ m => m.reverse }

/-- A loader whose every file parses to `config`. -/
def constLoader (config : Config) : Loader :=
  { readFile := fun _ => .ok [], unmarshal := fun _ => .ok config }

/-- A validated configuration with `ErrorPercent` 100, the distribution
`500: 100` and the weight 100 for `GetObject`. -/
def weightedErrorConfig : Config :=
  { fullErrorConfig with
    Generator.OperationWeights := [("GetObject", 100)],
    Generator.ProblematicBuckets := [] }

/-- A validated configuration with `ErrorPercent` 100, the distribution
`503: 100` and no weights. -/
def reloadedConfig : Config :=
  { fullErrorConfig with
    Generator.Defaults.ErrorStatusDistribution := [(503, 100)],
    Generator.ProblematicBuckets := [] }

/-- A configuration that only sets a rate of two thousand million events a
second. -/
def fastConfig : Config := { zeroConfig with Generator.Rate := 2000000000 }

/-! ## Configuration model: defaulting, lookup, reload -/

/-- The defaulting pass in closed form: every field of the result, written
from the fields of the input. -/
theorem validateAndSetDefaults_eq (cfg : Config) :
    validateAndSetDefaults cfg =
      ({ Generator :=
          { Rate := if cfg.Generator.Rate ≤ 0 then 10 else cfg.Generator.Rate
            OutputFormat :=
              if cfg.Generator.OutputFormat = "" then "json" else cfg.Generator.OutputFormat
            Output := cfg.Generator.Output
            OperationWeights := cfg.Generator.OperationWeights
            Defaults :=
              { ErrorPercent :=
                  if cfg.Generator.Defaults.ErrorPercent = 0 then 5
                  else cfg.Generator.Defaults.ErrorPercent
                ErrorStatusDistribution :=
                  if cfg.Generator.Defaults.ErrorStatusDistribution = []
                  then defaultErrorStatusDistribution
                  else cfg.Generator.Defaults.ErrorStatusDistribution
                Duration :=
                  { SuccessMin :=
                      if cfg.Generator.Defaults.Duration.SuccessMin = 0 then 5 / 100
                      else cfg.Generator.Defaults.Duration.SuccessMin
                    SuccessMax :=
                      if cfg.Generator.Defaults.Duration.SuccessMax = 0 then 5 / 10
                      else cfg.Generator.Defaults.Duration.SuccessMax
                    ErrorMin :=
                      if cfg.Generator.Defaults.Duration.ErrorMin = 0 then 1 / 100
                      else cfg.Generator.Defaults.Duration.ErrorMin
                    ErrorMax :=
                      if cfg.Generator.Defaults.Duration.ErrorMax = 0 then 2 / 10
                      else cfg.Generator.Defaults.Duration.ErrorMax } }
            ProblematicBuckets := cfg.Generator.ProblematicBuckets } }, none) := by
  rcases cfg with ⟨⟨rate, fmt, out, ow, ⟨ep, dist, ⟨smin, smax, emin, emax⟩⟩, pbs⟩⟩
  by_cases h1 : rate ≤ 0 <;> by_cases h2 : fmt = "" <;> by_cases h3 : ep = 0 <;>
    by_cases h4 : dist = [] <;> by_cases h5 : smin = 0 <;> by_cases h6 : smax = 0 <;>
    by_cases h7 : emin = 0 <;> by_cases h8 : emax = 0 <;>
    simp [validateAndSetDefaults, h1, h2, h3, h4, h5, h6, h7, h8]

/-- The lookup loop returns nothing exactly when no entry carries the name. -/
theorem GetProblematicBucket_loop_eq_none (name : String) (bs : List ProblematicBucket) :
    GetProblematicBucket.loop name bs = none ↔ ∀ b ∈ bs, b.Name ≠ name := by
  induction bs with
  | nil => simp [GetProblematicBucket.loop]
  | cons b rest ih =>
    by_cases h : b.Name = name
    · simp [GetProblematicBucket.loop, h]
    · simp [GetProblematicBucket.loop, h, ih]

/-- The lookup loop returns `b` exactly when `b` is the entry at the least
index that carries the name. -/
theorem GetProblematicBucket_loop_eq_some (name : String) (bs : List ProblematicBucket)
    (b : ProblematicBucket) :
    GetProblematicBucket.loop name bs = some b ↔
      ∃ i : Nat, bs[i]? = some b ∧ b.Name = name ∧
        ∀ j : Nat, j < i → ∀ b' : ProblematicBucket, bs[j]? = some b' → b'.Name ≠ name := by
  induction bs with
  | nil => simp [GetProblematicBucket.loop]
  | cons a rest ih =>
    by_cases h : a.Name = name
    · simp only [GetProblematicBucket.loop, h, if_true, Option.some.injEq]
      constructor
      · rintro rfl
        exact ⟨0, by simp, h, fun j hj => absurd hj (Nat.not_lt_zero j)⟩
      · rintro ⟨i, hi, _, hmin⟩
        cases i with
        | zero => simpa using hi
        | succ k => exact absurd h (hmin 0 (Nat.succ_pos k) a (by simp))
    · simp only [GetProblematicBucket.loop, h, if_false, ih]
      constructor
      · rintro ⟨i, hi, hb, hmin⟩
        refine ⟨i + 1, by simpa using hi, hb, ?_⟩
        intro j hj b' hb'
        cases j with
        | zero =>
          have : a = b' := by simpa using hb'
          exact this ▸ h
        | succ k => exact hmin k (Nat.lt_of_succ_lt_succ hj) b' (by simpa using hb')
      · rintro ⟨i, hi, hb, hmin⟩
        cases i with
        | zero =>
          have : a = b := by simpa using hi
          exact absurd hb (this ▸ h)
        | succ k =>
          refine ⟨k, by simpa using hi, hb, ?_⟩
          intro j hj b' hb'
          exact hmin (j + 1) (Nat.succ_lt_succ hj) b' (by simpa using hb')

/-- C1. `validateAndSetDefaults` returns no error; in the configuration it
yields, each defaulted field holds its fallback when the input field was unset
(`Rate <= 0`, empty format, zero number, empty distribution) and the input
value otherwise, and `OperationWeights`, `ProblematicBuckets` and `Output` are
the input's. -/
theorem validateAndSetDefaults_defaults (cfg : Config) :
    (validateAndSetDefaults cfg).2 = none ∧
    (validateAndSetDefaults cfg).1.Generator.Rate
      = (if cfg.Generator.Rate ≤ 0 then 10 else cfg.Generator.Rate) ∧
    (validateAndSetDefaults cfg).1.Generator.OutputFormat
      = (if cfg.Generator.OutputFormat = "" then "json" else cfg.Generator.OutputFormat) ∧
    (validateAndSetDefaults cfg).1.Generator.Defaults.ErrorPercent
      = (if cfg.Generator.Defaults.ErrorPercent = 0 then 5
          else cfg.Generator.Defaults.ErrorPercent) ∧
    (validateAndSetDefaults cfg).1.Generator.Defaults.ErrorStatusDistribution
      = (if cfg.Generator.Defaults.ErrorStatusDistribution = []
          then [(404, 40), (500, 30), (504, 20), (403, 10)]
          else cfg.Generator.Defaults.ErrorStatusDistribution) ∧
    (validateAndSetDefaults cfg).1.Generator.Defaults.Duration.SuccessMin
      = (if cfg.Generator.Defaults.Duration.SuccessMin = 0 then 5 / 100
          else cfg.Generator.Defaults.Duration.SuccessMin) ∧
    (validateAndSetDefaults cfg).1.Generator.Defaults.Duration.SuccessMax
      = (if cfg.Generator.Defaults.Duration.SuccessMax = 0 then 5 / 10
          else cfg.Generator.Defaults.Duration.SuccessMax) ∧
    (validateAndSetDefaults cfg).1.Generator.Defaults.Duration.ErrorMin
      = (if cfg.Generator.Defaults.Duration.ErrorMin = 0 then 1 / 100
          else cfg.Generator.Defaults.Duration.ErrorMin) ∧
    (validateAndSetDefaults cfg).1.Generator.Defaults.Duration.ErrorMax
      = (if cfg.Generator.Defaults.Duration.ErrorMax = 0 then 2 / 10
          else cfg.Generator.Defaults.Duration.ErrorMax) ∧
    (validateAndSetDefaults cfg).1.Generator.OperationWeights
      = cfg.Generator.OperationWeights ∧
    (validateAndSetDefaults cfg).1.Generator.ProblematicBuckets
      = cfg.Generator.ProblematicBuckets ∧
    (validateAndSetDefaults cfg).1.Generator.Output = cfg.Generator.Output := by
  rw [validateAndSetDefaults_eq]
  exact ⟨rfl, rfl, rfl, rfl, rfl, rfl, rfl, rfl, rfl, rfl, rfl, rfl⟩

/-- C2. `ReloadConfig` is all-or-nothing: when loading the file fails with
error `e`, it returns `e` and leaves memory (the snapshot behind `c` included)
as it was; when loading succeeds with `n`, it returns no error, the snapshot
behind `c` is `n`, and no other address changes. -/
theorem ReloadConfig_all_or_nothing (env : Loader) (mem : Heap) (c : Addr) (path : String) :
    (∀ e, LoadConfig env path = .error e →
      ReloadConfig env mem c path = (mem, some e)) ∧
    (∀ n, LoadConfig env path = .ok n →
      (ReloadConfig env mem c path).2 = none ∧
      (ReloadConfig env mem c path).1 c = n ∧
      ∀ a, a ≠ c → (ReloadConfig env mem c path).1 a = mem a) := by
  constructor
  · intro e h
    simp [ReloadConfig, h]
  · intro n h
    refine ⟨by simp [ReloadConfig, h], by simp [ReloadConfig, h], ?_⟩
    intro a ha
    simp [ReloadConfig, h, Function.update_noteq ha]

/-- C3. `GetProblematicBucket` returns nil exactly when no override carries the
name, and returns `b` exactly when `b` is the override at the least index whose
`Name` equals the name. -/
theorem GetProblematicBucket_first_match (c : Config) (name : String) :
    (c.GetProblematicBucket name = none ↔
      ∀ b ∈ c.Generator.ProblematicBuckets, b.Name ≠ name) ∧
    (∀ b, c.GetProblematicBucket name = some b ↔
      ∃ i : Nat, c.Generator.ProblematicBuckets[i]? = some b ∧ b.Name = name ∧
        ∀ j : Nat, j < i → ∀ b' : ProblematicBucket,
          c.Generator.ProblematicBuckets[j]? = some b' → b'.Name ≠ name) :=
  ⟨GetProblematicBucket_loop_eq_none name _, GetProblematicBucket_loop_eq_some name _⟩

/-! ## Operation selection -/

theorem initOperations_operations (mem : Heap) (lg : LogGenerator) :
    (initOperations mem lg).operations = operationCatalog := rfl

theorem initOperations_cfg (mem : Heap) (lg : LogGenerator) :
    (initOperations mem lg).cfg = lg.cfg := rfl

theorem initOperations_rng (mem : Heap) (lg : LogGenerator) :
    (initOperations mem lg).rng = lg.rng := rfl

/-- The weight slice built by `initOperations`, entry by entry. -/
theorem initOperations_operationWeights (mem : Heap) (lg : LogGenerator) :
    (initOperations mem lg).operationWeights =
      operationCatalog.map fun op =>
        if (mem lg.cfg).Generator.OperationWeights.index op.API = 0 then 1
        else (mem lg.cfg).Generator.OperationWeights.index op.API := rfl

theorem initOperations_totalWeight (mem : Heap) (lg : LogGenerator) :
    (initOperations mem lg).totalWeight = (initOperations mem lg).operationWeights.sum := by
  rw [initOperations_operationWeights]
  simp only [initOperations, initOperations.loop, operationCatalog, List.map, List.sum_cons,
    List.sum_nil]
  ring

/-- The selection loop returns index `k` exactly when `k` is the first position
at which the running sum reaches the draw. -/
theorem selectOperation_loop_eq_some (r : ℚ) (ws : List ℚ) (i : Nat) (s : ℚ) (k : Nat) :
    selectOperation.loop r ws i s = some k ↔
      ∃ j : Nat, j < ws.length ∧ k = i + j ∧ r ≤ s + (ws.take (j + 1)).sum ∧
        ∀ j' : Nat, j' < j → s + (ws.take (j' + 1)).sum < r := by
  induction ws generalizing i s with
  | nil => simp [selectOperation.loop]
  | cons w rest ih =>
    by_cases h : r ≤ s + w
    · simp only [selectOperation.loop, h, if_true, Option.some.injEq]
      constructor
      · rintro rfl
        exact ⟨0, by simp, by simp, by simpa using h,
          fun j' hj' => absurd hj' (Nat.not_lt_zero _)⟩
      · rintro ⟨j, _, hk, _, hmin⟩
        cases j with
        | zero => simpa using hk.symm
        | succ j =>
          have := hmin 0 (Nat.succ_pos j)
          simp at this
          linarith
    · simp only [selectOperation.loop, h, if_false, ih]
      constructor
      · rintro ⟨j, hj, hk, hr, hmin⟩
        refine ⟨j + 1, by simpa using hj, by omega, ?_, ?_⟩
        · simpa [add_assoc] using hr
        · intro j' hj'
          cases j' with
          | zero =>
            simp
            linarith [not_le.mp h]
          | succ j' =>
            have := hmin j' (by omega)
            simpa [add_assoc] using this
      · rintro ⟨j, hj, hk, hr, hmin⟩
        cases j with
        | zero =>
          simp at hr
          exact absurd hr h
        | succ j =>
          refine ⟨j, by simpa using hj, by omega, by simpa [add_assoc] using hr, ?_⟩
          intro j' hj'
          have := hmin (j' + 1) (by omega)
          simpa [add_assoc] using this

/-- The selection loop runs off the end exactly when the draw exceeds every
running sum. -/
theorem selectOperation_loop_eq_none (r : ℚ) (ws : List ℚ) (i : Nat) (s : ℚ) :
    selectOperation.loop r ws i s = none ↔
      ∀ j : Nat, j < ws.length → s + (ws.take (j + 1)).sum < r := by
  induction ws generalizing i s with
  | nil => simp [selectOperation.loop]
  | cons w rest ih =>
    by_cases h : r ≤ s + w
    · simp only [selectOperation.loop, h, if_true]
      constructor
      · intro hc
        cases hc
      · intro hall
        have := hall 0 (by simp)
        simp at this
        linarith
    · simp only [selectOperation.loop, h, if_false, ih]
      constructor
      · intro hall j hj
        cases j with
        | zero =>
          simp
          linarith [not_le.mp h]
        | succ j =>
          have := hall j (by simpa using hj)
          simpa [add_assoc] using this
      · intro hall j hj
        have := hall (j + 1) (by simpa using hj)
        simpa [add_assoc] using this

/-- An index returned by the selection loop is a position of the weight slice. -/
theorem selectOperation_loop_lt (r : ℚ) (ws : List ℚ) (k : Nat)
    (h : selectOperation.loop r ws 0 0 = some k) : k < ws.length := by
  obtain ⟨j, hj, hk, _⟩ := (selectOperation_loop_eq_some r ws 0 0 k).mp h
  omega

/-- Whenever there is a catalog entry for each weight and the catalog is not
empty, `selectOperation` returns an entry of the catalog, having consumed one
draw. -/
theorem selectOperation_mem (lg : LogGenerator)
    (hlen : lg.operationWeights.length ≤ lg.operations.length)
    (hne : 0 < lg.operations.length) :
    ∃ op, selectOperation lg = some (op, { lg with rng := lg.rng.advance }) ∧
      op ∈ lg.operations := by
  unfold selectOperation
  simp only [Rng.Float64]
  cases hloop : selectOperation.loop ((lg.rng.draws 0).float * lg.totalWeight)
      lg.operationWeights 0 0 with
  | none =>
    refine ⟨lg.operations[0], ?_, List.getElem_mem _⟩
    simp [List.getElem?_eq_getElem hne]
  | some k =>
    have hk : k < lg.operations.length :=
      lt_of_lt_of_le (selectOperation_loop_lt _ _ _ hloop) hlen
    refine ⟨lg.operations[k], ?_, List.getElem_mem _⟩
    simp [List.getElem?_eq_getElem hk]

/-- The first component of the result of `selectOperation`. -/
theorem selectOperation_fst (lg : LogGenerator) :
    (selectOperation lg).map Prod.fst =
      match selectOperation.loop ((lg.rng.draws 0).float * lg.totalWeight)
          lg.operationWeights 0 0 with
      | some i => lg.operations[i]?
      | none => lg.operations[0]? := by
  unfold selectOperation
  simp only [Rng.Float64]
  cases selectOperation.loop ((lg.rng.draws 0).float * lg.totalWeight)
      lg.operationWeights 0 0 <;>
    simp [Option.map_map, Function.comp_def]

/-- Running sums of non-negative weights grow with the number of summands. -/
theorem sum_take_mono (ws : List ℚ) (hnn : ∀ w ∈ ws, 0 ≤ w) (a b : Nat) (hab : a ≤ b) :
    (ws.take a).sum ≤ (ws.take b).sum := by
  induction ws generalizing a b with
  | nil => simp
  | cons w rest ih =>
    have hw : 0 ≤ w := hnn w (by simp)
    have hrest : ∀ x ∈ rest, 0 ≤ x := fun x hx => hnn x (by simp [hx])
    cases a with
    | zero =>
      simp only [List.take_zero, List.sum_nil]
      cases b with
      | zero => simp
      | succ b =>
        simp only [List.take_succ_cons, List.sum_cons]
        have := ih hrest 0 b (Nat.zero_le _)
        simp only [List.take_zero, List.sum_nil] at this
        linarith
    | succ a =>
      cases b with
      | zero => omega
      | succ b =>
        simp only [List.take_succ_cons, List.sum_cons]
        have := ih hrest a b (by omega)
        linarith

/-- The running sum up to and including position `k` exceeds the one before it
by the weight at `k`. -/
theorem sum_take_succ_sub (ws : List ℚ) (k : Nat) (w : ℚ) (h : ws[k]? = some w) :
    (ws.take (k + 1)).sum - (ws.take k).sum = w := by
  induction ws generalizing k with
  | nil => simp at h
  | cons a rest ih =>
    cases k with
    | zero =>
      have : a = w := by simpa using h
      simp [this]
    | succ k =>
      have := ih k (by simpa using h)
      simp only [List.take_succ_cons, List.sum_cons]
      linarith

theorem operationCatalog_nodup : operationCatalog.Nodup := by decide

/-- C4. On the engine built by `initOperations` from any configuration, and for
any draw, `selectOperation` returns (it does not panic on an index) one of the
16 entries of the operation catalog, having consumed one draw. -/
theorem selectOperation_returns_catalog_entry (mem : Heap) (lg0 : LogGenerator) :
    operationCatalog.length = 16 ∧
    ∃ op, selectOperation (initOperations mem lg0)
        = some (op, { initOperations mem lg0 with rng := lg0.rng.advance }) ∧
      op ∈ operationCatalog := by
  refine ⟨rfl, ?_⟩
  have h := selectOperation_mem (initOperations mem lg0)
    (by rw [initOperations_operationWeights, initOperations_operations, List.length_map])
    (by rw [initOperations_operations]; decide)
  simpa only [initOperations_operations, initOperations_rng] using h

/-- C5. On an engine built by `initOperations` whose weights `ws` are all
positive, with a draw `u` in `[0, 1)` and `r = u * totalWeight`: some index `i`
has running sum `>= r`; the loop of `selectOperation` returns at the least such
index (so the fallback after the loop is not reached) and `selectOperation`
returns the catalog entry there.  Entry `k` is returned exactly when
`sum_(k-1) < r <= sum_k` (only `r <= w_0` for `k = 0`); consecutive running
sums differ by the weight at `k`, the last one is `totalWeight`, and
`0 <= r < totalWeight`. -/
theorem selectOperation_cumulative_inversion (mem : Heap) (lg0 : LogGenerator)
    (ws : List ℚ) (r : ℚ)
    (hws : ws = (initOperations mem lg0).operationWeights)
    (hr : r = (lg0.rng.draws 0).float * (initOperations mem lg0).totalWeight)
    (hpos : ∀ w ∈ ws, 0 < w)
    (hu : 0 ≤ (lg0.rng.draws 0).float ∧ (lg0.rng.draws 0).float < 1) :
    (∃ (i : Nat) (op : OperationInfo), operationCatalog[i]? = some op ∧
        r ≤ (ws.take (i + 1)).sum ∧
        (∀ j : Nat, j < i → (ws.take (j + 1)).sum < r) ∧
        selectOperation.loop r ws 0 0 = some i ∧
        (selectOperation (initOperations mem lg0)).map Prod.fst = some op) ∧
    (∀ (k : Nat) (op : OperationInfo), operationCatalog[k]? = some op →
        ((selectOperation (initOperations mem lg0)).map Prod.fst = some op ↔
          (k = 0 ∨ (ws.take k).sum < r) ∧ r ≤ (ws.take (k + 1)).sum)) ∧
    (∀ (k : Nat) (w : ℚ), ws[k]? = some w → (ws.take (k + 1)).sum - (ws.take k).sum = w) ∧
    (ws.take 16).sum = (initOperations mem lg0).totalWeight ∧
    0 ≤ r ∧ r < (initOperations mem lg0).totalWeight := by
  have hlen : ws.length = 16 := by
    rw [hws, initOperations_operationWeights, List.length_map]
    rfl
  have htot : (ws.take 16).sum = (initOperations mem lg0).totalWeight := by
    rw [initOperations_totalWeight, ← hws, ← hlen, List.take_length]
  have hnn : ∀ w ∈ ws, 0 ≤ w := fun w hw => le_of_lt (hpos w hw)
  have hw0 : ∃ w0, ws[0]? = some w0 := ⟨ws[0], by simp [List.getElem?_eq_getElem, hlen]⟩
  obtain ⟨w0, hw0⟩ := hw0
  have hw0pos : 0 < w0 := hpos w0 (List.getElem?_mem hw0)
  have htotpos : 0 < (initOperations mem lg0).totalWeight := by
    have h1 := sum_take_succ_sub ws 0 w0 hw0
    have h2 := sum_take_mono ws hnn 1 16 (by omega)
    simp only [List.take_zero, List.sum_nil, sub_zero] at h1
    linarith
  have hr0 : 0 ≤ r := by
    rw [hr]
    exact mul_nonneg hu.1 (le_of_lt htotpos)
  have hrlt : r < (initOperations mem lg0).totalWeight := by
    rw [hr]
    calc (lg0.rng.draws 0).float * (initOperations mem lg0).totalWeight
        < 1 * (initOperations mem lg0).totalWeight :=
          mul_lt_mul_of_pos_right hu.2 htotpos
      _ = (initOperations mem lg0).totalWeight := one_mul _
  -- the loop returns
  have hsome : ∃ i, selectOperation.loop r ws 0 0 = some i := by
    cases hloop : selectOperation.loop r ws 0 0 with
    | some i => exact ⟨i, rfl⟩
    | none =>
      have h := (selectOperation_loop_eq_none r ws 0 0).mp hloop 15 (by omega)
      simp only [zero_add] at h
      linarith
  obtain ⟨i, hloop⟩ := hsome
  obtain ⟨j, hj, hij, hle, hmin⟩ := (selectOperation_loop_eq_some r ws 0 0 i).mp hloop
  simp only [zero_add] at hij hle hmin
  subst hij
  have hsel : (selectOperation (initOperations mem lg0)).map Prod.fst = operationCatalog[i]? := by
    rw [selectOperation_fst, initOperations_rng, ← hr, ← hws, hloop, initOperations_operations]
  have hi16 : i < operationCatalog.length := by
    have : operationCatalog.length = 16 := rfl
    omega
  refine ⟨⟨i, operationCatalog[i], List.getElem?_eq_getElem hi16, hle, hmin, hloop, ?_⟩,
    ?_, sum_take_succ_sub ws, htot, hr0, hrlt⟩
  · rw [hsel, List.getElem?_eq_getElem hi16]
  · intro k op hk
    have hk16 : k < operationCatalog.length := (List.getElem?_eq_some_iff.mp hk).1
    have hkop : operationCatalog[k] = op := (List.getElem?_eq_some_iff.mp hk).2
    rw [hsel, List.getElem?_eq_getElem hi16, Option.some.injEq]
    constructor
    · intro heq
      have hik : i = k := by
        have h2 : operationCatalog[i] = operationCatalog[k] := heq.trans hkop.symm
        exact operationCatalog_nodup.getElem_inj_iff.mp h2
      subst hik
      refine ⟨?_, hle⟩
      cases i with
      | zero => exact Or.inl rfl
      | succ n => exact Or.inr (hmin n (Nat.lt_succ_self n))
    · rintro ⟨hlow, hhigh⟩
      have hik : i = k := by
        rcases Nat.lt_trichotomy i k with hlt | heq | hgt
        · exfalso
          have hk0 : (ws.take k).sum < r := by
            rcases hlow with h0 | h0
            · omega
            · exact h0
          have := sum_take_mono ws hnn (i + 1) k hlt
          linarith
        · exact heq
        · exfalso
          have := hmin k hgt
          linarith
      subst hik
      exact hkop

/-- The witness of C5: the engine of the zero configuration (every weight
1.0) with the draw 1/2. -/
theorem selectOperation_cumulative_inversion_witness :
    (∀ w ∈ (initOperations (fun _ => zeroConfig)
        (blankGenerator 0 (constRng (1 / 2) 0))).operationWeights, 0 < w) ∧
    ((0 : ℚ) ≤ 1 / 2 ∧ (1 / 2 : ℚ) < 1) ∧
    ∃ (i : Nat) (op : OperationInfo), operationCatalog[i]? = some op ∧
      (selectOperation (initOperations (fun _ => zeroConfig)
        (blankGenerator 0 (constRng (1 / 2) 0)))).map Prod.fst = some op :=
  have hpos : ∀ w ∈ (initOperations (fun _ => zeroConfig)
      (blankGenerator 0 (constRng (1 / 2) 0))).operationWeights, 0 < w := by
    intro w hw
    rw [initOperations_operationWeights] at hw
    simp [zeroConfig, GoMap.index, operationCatalog] at hw
    rw [hw]
    norm_num
  have hu : (0 : ℚ) ≤ 1 / 2 ∧ (1 / 2 : ℚ) < 1 := by norm_num
  have h := selectOperation_cumulative_inversion (fun _ => zeroConfig)
    (blankGenerator 0 (constRng (1 / 2) 0)) _ _ rfl rfl hpos hu
  ⟨hpos, hu, h.1.elim fun i hi => hi.elim fun op hop => ⟨i, op, hop.1, hop.2.2.2.2⟩⟩

/-- A key that the map does not hold indexes to the zero value. -/
theorem GoMap_index_of_not_mem_keys (m : GoMap String ℚ) (key : String)
    (h : key ∉ m.keys) : m.index key = 0 := by
  induction m with
  | nil => rfl
  | cons e rest ih =>
    obtain ⟨k, v⟩ := e
    simp only [GoMap.keys, List.map_cons, List.mem_cons, not_or] at h
    have hk : ¬ k = key := fun hk => h.1 hk.symm
    simp only [GoMap.index, hk, if_false]
    exact ih h.2

/-- C6 as stated fails: with the entry `GetObject: 0` present in
`OperationWeights`, the engine's weight for `GetObject` (catalog index 0) is
1.0, not the configured 0. -/
theorem initOperations_zero_weight_counterexample :
    ("GetObject", (0 : ℚ)) ∈ zeroWeightConfig.Generator.OperationWeights ∧
    operationCatalog[0]? = some ⟨"GetObject", "GET", true, true⟩ ∧
    zeroWeightConfig.Generator.OperationWeights.index "GetObject" = 0 ∧
    (initOperations (fun _ => zeroWeightConfig)
      (blankGenerator 0 (constRng 0 0))).operationWeights[0]? = some 1 ∧
    (initOperations (fun _ => zeroWeightConfig)
      (blankGenerator 0 (constRng 0 0))).operationWeights[0]?
      ≠ some (zeroWeightConfig.Generator.OperationWeights.index "GetObject") := by
  have h1 : zeroWeightConfig.Generator.OperationWeights.index "GetObject" = 0 := by
    simp [zeroWeightConfig, zeroConfig, GoMap.index]
  have h2 : (initOperations (fun _ => zeroWeightConfig)
      (blankGenerator 0 (constRng 0 0))).operationWeights[0]? = some 1 := by
    rw [initOperations_operationWeights]
    simp [operationCatalog, h1]
  refine ⟨by simp [zeroWeightConfig], rfl, h1, h2, ?_⟩
  rw [h1, h2]
  simp

/-- C6, amended. The engine built by `initOperations` has the 16-entry catalog
and one weight per entry; the weight of an operation is the value that
`OperationWeights` holds for its name when that value is not zero, and 1.0
when it is zero, which is the case in particular when the map has no entry
for the name; `totalWeight` is the sum of the 16 weights. -/
theorem initOperations_weight_table (mem : Heap) (lg0 : LogGenerator) :
    (initOperations mem lg0).operations = operationCatalog ∧
    operationCatalog.length = 16 ∧
    (initOperations mem lg0).operationWeights.length = 16 ∧
    (∀ (i : Nat) (op : OperationInfo), operationCatalog[i]? = some op →
      (initOperations mem lg0).operationWeights[i]? =
        some (if (mem lg0.cfg).Generator.OperationWeights.index op.API = 0 then 1
          else (mem lg0.cfg).Generator.OperationWeights.index op.API)) ∧
    (∀ name : String, name ∉ (mem lg0.cfg).Generator.OperationWeights.keys →
      (mem lg0.cfg).Generator.OperationWeights.index name = 0) ∧
    (initOperations mem lg0).totalWeight = (initOperations mem lg0).operationWeights.sum := by
  refine ⟨rfl, rfl, ?_, ?_, fun name h => GoMap_index_of_not_mem_keys _ name h,
    initOperations_totalWeight mem lg0⟩
  · rw [initOperations_operationWeights, List.length_map]
    rfl
  · intro i op hop
    rw [initOperations_operationWeights, List.getElem?_map, hop]
    rfl

/-! ## Status determination -/

/-- A status returned by the walk over the distribution is the key of a
visited entry. -/
theorem selectStatusFromDistribution_loop_mem (r : ℚ) (visit : List (Int × ℚ)) (s : ℚ)
    (status : Int) (h : selectStatusFromDistribution.loop r visit s = some status) :
    status ∈ visit.map Prod.fst := by
  induction visit generalizing s with
  | nil => simp [selectStatusFromDistribution.loop] at h
  | cons e rest ih =>
    obtain ⟨k, w⟩ := e
    by_cases hr : r ≤ s + w
    · simp only [selectStatusFromDistribution.loop, hr, if_true, Option.some.injEq] at h
      simp [h]
    · simp only [selectStatusFromDistribution.loop, hr, if_false] at h
      simp [ih _ h]

/-- Over a non-empty distribution, whatever the draw and the visiting orders,
`selectStatusFromDistribution` returns one of its keys. -/
theorem selectStatusFromDistribution_mem_keys (lg : LogGenerator) (rt : Runtime)
    (dist : GoMap Int ℚ) (hfair : rt.Fair) (hne : dist ≠ []) :
    (selectStatusFromDistribution lg rt dist).1 ∈ dist.keys := by
  unfold selectStatusFromDistribution
  simp only [Runtime.rangeMap, Rng.Float64]
  have h1 : (rt.mapOrder 1 dist).Perm dist := hfair 1 dist
  have h2 : (rt.mapOrder 2 dist).Perm dist := hfair 2 dist
  split
  · rename_i status hloop
    have := selectStatusFromDistribution_loop_mem _ _ _ _ hloop
    exact (h1.map Prod.fst).subset this
  · split
    · rename_i status w rest hvisit
      have hmem : (status, w) ∈ rt.mapOrder 2 dist := by
        have : rt.mapOrder (0 + 1 + 1) dist = (status, w) :: rest := hvisit
        simp only [zero_add] at this
        rw [show (1 : Nat) + 1 = 2 from rfl] at this
        rw [this]
        exact List.mem_cons_self _ _
      exact List.mem_map.mpr ⟨(status, w), h2.subset hmem, rfl⟩
    · rename_i hvisit
      have : rt.mapOrder (0 + 1 + 1) dist = [] := hvisit
      simp only [zero_add] at this
      rw [show (1 : Nat) + 1 = 2 from rfl] at this
      rw [this] at h2
      exact absurd h2.symm.eq_nil hne

/-- Over the empty distribution `selectStatusFromDistribution` returns 500. -/
theorem selectStatusFromDistribution_nil (lg : LogGenerator) (rt : Runtime)
    (hfair : rt.Fair) : (selectStatusFromDistribution lg rt []).1 = 500 := by
  have h0 : ∀ k, rt.mapOrder k [] = [] := fun k => (hfair k []).eq_nil
  unfold selectStatusFromDistribution
  simp [Runtime.rangeMap, Rng.Float64, h0, selectStatusFromDistribution.loop]

/-- The outcome flag of `determineStatus` is the comparison of the first draw
with the effective error percentage. -/
theorem determineStatus_isError (mem : Heap) (lg : LogGenerator) (rt : Runtime)
    (problematic : Option ProblematicBucket) :
    (determineStatus mem lg rt problematic).1.1 = true ↔
      (lg.rng.draws 0).float * 100 <
        (mem lg.cfg).Generator.Defaults.ErrorPercent *
          (match problematic with
            | some p => p.ErrorMultiplier
            | none => 1) := by
  cases problematic with
  | none =>
    simp only [determineStatus, Rng.Float64, mul_one]
    split_ifs with h <;> simp [h]
  | some p =>
    simp only [determineStatus, Rng.Float64]
    split_ifs with h <;> simp [h]

theorem Rng.advance_draws (r : Rng) (i : Nat) : r.advance.draws i = r.draws (i + 1) := rfl

/-- On a success outcome the status is 204 or 200 by the second draw. -/
theorem determineStatus_success_status (mem : Heap) (lg : LogGenerator) (rt : Runtime)
    (problematic : Option ProblematicBucket)
    (h : (determineStatus mem lg rt problematic).1.1 = false) :
    (determineStatus mem lg rt problematic).1.2
      = if (lg.rng.draws 1).float < 1 / 10 then 204 else 200 := by
  cases problematic with
  | none =>
    simp only [determineStatus, Rng.Float64, Rng.advance_draws, zero_add] at h ⊢
    split_ifs at h ⊢ <;> rfl
  | some p =>
    simp only [determineStatus, Rng.Float64, Rng.advance_draws, zero_add] at h ⊢
    split_ifs at h ⊢ <;> rfl

/-- On an error outcome the status is the one `selectStatusFromDistribution`
picks from the override's distribution when that is non-empty and from the
default distribution otherwise. -/
theorem determineStatus_error_status (mem : Heap) (lg : LogGenerator) (rt : Runtime)
    (problematic : Option ProblematicBucket)
    (h : (determineStatus mem lg rt problematic).1.1 = true) :
    (determineStatus mem lg rt problematic).1.2
      = (selectStatusFromDistribution { lg with rng := lg.rng.advance } rt
          (problematic.elim (mem lg.cfg).Generator.Defaults.ErrorStatusDistribution fun p =>
            if p.ErrorStatusDistribution = []
            then (mem lg.cfg).Generator.Defaults.ErrorStatusDistribution
            else p.ErrorStatusDistribution)).1 := by
  cases problematic with
  | none =>
    simp only [determineStatus, Rng.Float64, Option.elim] at h ⊢
    split_ifs at h ⊢
    rfl
  | some p =>
    simp only [determineStatus, Rng.Float64, Option.elim] at h ⊢
    by_cases hp : p.ErrorStatusDistribution = []
    · simp only [hp, List.length_nil, gt_iff_lt, lt_self_iff_false, if_false, if_true] at h ⊢
      split_ifs at h ⊢
      rfl
    · have hlen : p.ErrorStatusDistribution.length > 0 := List.length_pos.mpr hp
      simp only [hp, hlen, if_false, if_true] at h ⊢
      split_ifs at h ⊢
      rfl

/-- The generator that `determineStatus` hands back has consumed two draws. -/
theorem determineStatus_generator (mem : Heap) (lg : LogGenerator) (rt : Runtime)
    (problematic : Option ProblematicBucket) :
    (determineStatus mem lg rt problematic).2.1
      = { lg with rng := lg.rng.advance.advance } := by
  cases problematic <;>
    simp only [determineStatus, selectStatusFromDistribution, Rng.Float64, Runtime.rangeMap] <;>
    split_ifs <;> (try split) <;> (try split) <;> rfl

theorem plainRuntime_fair : plainRuntime.Fair := fun _ m => List.Perm.refl m

theorem constRng_unit (u : ℚ) (n : Nat) (h0 : 0 ≤ u) (h1 : u < 1) : (constRng u n).Unit :=
  fun _ => ⟨h0, h1⟩

theorem NewLogGenerator_cfg (mem : Heap) (c : Addr) (rng : Rng) (rt : Runtime) :
    (NewLogGenerator mem c rng rt).1.cfg = c := rfl

theorem NewLogGenerator_rng (mem : Heap) (c : Addr) (rng : Rng) (rt : Runtime) :
    (NewLogGenerator mem c rng rt).1.rng = rng := rfl

/-- C9. `determineStatus` reports an error exactly when the first draw times
100 is below `ErrorPercent * m`, with `m` the override's `ErrorMultiplier` when
an override is present and 1 otherwise; when it reports no error, the status
is 204 if the second draw is below 0.1 and 200 otherwise. -/
theorem determineStatus_outcome (mem : Heap) (lg : LogGenerator) (rt : Runtime)
    (problematic : Option ProblematicBucket) :
    ((determineStatus mem lg rt problematic).1.1 = true ↔
      (lg.rng.draws 0).float * 100 <
        (mem lg.cfg).Generator.Defaults.ErrorPercent *
          (match problematic with
            | some p => p.ErrorMultiplier
            | none => 1)) ∧
    ((determineStatus mem lg rt problematic).1.1 = false →
      (determineStatus mem lg rt problematic).1.2
        = if (lg.rng.draws 1).float < 1 / 10 then 204 else 200) :=
  ⟨determineStatus_isError mem lg rt problematic,
    determineStatus_success_status mem lg rt problematic⟩

/-- C7 as stated fails. (a) In the validated configuration `fullErrorConfig`
(`ErrorPercent` 100) the bucket `slow-sync-bucket` has an override whose
`ErrorMultiplier` is 0, and `determineStatus` with that override returns no
error and status 200.  (b) In `bareErrorConfig` (`ErrorPercent` 100, no
distribution, no override) it returns an error with status 500, which is not a
key of the distribution. -/
theorem determineStatus_full_error_percent_counterexample :
    (fullErrorConfig.Generator.Defaults.ErrorPercent = 100 ∧
      (validateAndSetDefaults fullErrorConfig).1 = fullErrorConfig ∧
      fullErrorConfig.GetProblematicBucket "slow-sync-bucket" = some slowSyncBucket ∧
      (determineStatus (fun _ => fullErrorConfig)
        (NewLogGenerator (fun _ => fullErrorConfig) 0 (constRng (1 / 2) 0) plainRuntime).1
        plainRuntime (some slowSyncBucket)).1 = (false, 200)) ∧
    (bareErrorConfig.Generator.Defaults.ErrorPercent = 100 ∧
      (determineStatus (fun _ => bareErrorConfig)
        (NewLogGenerator (fun _ => bareErrorConfig) 0 (constRng (1 / 2) 0) plainRuntime).1
        plainRuntime none).1 = (true, 500) ∧
      (500 : Int) ∉ bareErrorConfig.Generator.Defaults.ErrorStatusDistribution.keys) := by
  refine ⟨⟨rfl, ?_, ?_, ?_⟩, rfl, ?_, ?_⟩
  · rw [validateAndSetDefaults_eq]
    simp [fullErrorConfig]
  · simp [Config.GetProblematicBucket, GetProblematicBucket.loop, fullErrorConfig,
      slowSyncBucket]
  · simp only [determineStatus, Rng.Float64, NewLogGenerator_cfg, NewLogGenerator_rng]
    norm_num [constRng, fullErrorConfig, slowSyncBucket, Rng.advance]
  · simp only [determineStatus, Rng.Float64, NewLogGenerator_cfg, NewLogGenerator_rng]
    norm_num [constRng, bareErrorConfig, zeroConfig, selectStatusFromDistribution,
      selectStatusFromDistribution.loop, Runtime.rangeMap, plainRuntime]
  · simp [bareErrorConfig, zeroConfig, GoMap.keys]

/-- C7, amended. With `ErrorPercent` 100, draws in `[0, 1)`, and either no
override or an override whose `ErrorMultiplier` is at least 1, `determineStatus`
reports an error; and when the applicable distribution (the override's when it
is non-empty, the default one otherwise) is non-empty, as it is in every
validated configuration, the status is one of its keys, whatever the order in
which the map is visited. -/
theorem determineStatus_full_error_percent (mem : Heap) (lg : LogGenerator) (rt : Runtime)
    (problematic : Option ProblematicBucket)
    (hEP : (mem lg.cfg).Generator.Defaults.ErrorPercent = 100)
    (hu : lg.rng.Unit) (hfair : rt.Fair)
    (hm : ∀ p, problematic = some p → 1 ≤ p.ErrorMultiplier) :
    (determineStatus mem lg rt problematic).1.1 = true ∧
    ((problematic.elim (mem lg.cfg).Generator.Defaults.ErrorStatusDistribution fun p =>
        if p.ErrorStatusDistribution = []
        then (mem lg.cfg).Generator.Defaults.ErrorStatusDistribution
        else p.ErrorStatusDistribution) ≠ [] →
      (determineStatus mem lg rt problematic).1.2 ∈
        GoMap.keys
          (problematic.elim (mem lg.cfg).Generator.Defaults.ErrorStatusDistribution fun p =>
            if p.ErrorStatusDistribution = []
            then (mem lg.cfg).Generator.Defaults.ErrorStatusDistribution
            else p.ErrorStatusDistribution)) := by
  have herr : (determineStatus mem lg rt problematic).1.1 = true := by
    rw [determineStatus_isError, hEP]
    have h1 := (hu 0).2
    cases problematic with
    | none =>
      show (lg.rng.draws 0).float * 100 < 100 * 1
      linarith
    | some p =>
      show (lg.rng.draws 0).float * 100 < 100 * p.ErrorMultiplier
      have := hm p rfl
      linarith
  refine ⟨herr, fun hdist => ?_⟩
  rw [determineStatus_error_status mem lg rt problematic herr]
  exact selectStatusFromDistribution_mem_keys _ rt _ hfair hdist

/-- The witness of C7: `fullErrorConfig` without an override, every draw 1/2. -/
theorem determineStatus_full_error_percent_witness :
    (fullErrorConfig.Generator.Defaults.ErrorPercent = 100 ∧ (constRng (1 / 2) 0).Unit ∧
      plainRuntime.Fair) ∧
    (determineStatus (fun _ => fullErrorConfig)
      (NewLogGenerator (fun _ => fullErrorConfig) 0 (constRng (1 / 2) 0) plainRuntime).1
      plainRuntime none).1.1 = true ∧
    (determineStatus (fun _ => fullErrorConfig)
      (NewLogGenerator (fun _ => fullErrorConfig) 0 (constRng (1 / 2) 0) plainRuntime).1
      plainRuntime none).1.2 ∈ GoMap.keys [((500 : Int), (100 : ℚ))] :=
  have h := determineStatus_full_error_percent (fun _ => fullErrorConfig)
    (NewLogGenerator (fun _ => fullErrorConfig) 0 (constRng (1 / 2) 0) plainRuntime).1
    plainRuntime none rfl (constRng_unit (1 / 2) 0 (by norm_num) (by norm_num))
    plainRuntime_fair (fun p hp => by cases hp)
  ⟨⟨rfl, constRng_unit (1 / 2) 0 (by norm_num) (by norm_num), plainRuntime_fair⟩,
    h.1, h.2 (by simp [fullErrorConfig])⟩

/-- C10 as stated fails: in `bareErrorConfig`, whose default distribution is
empty, an error outcome without an override, or with the override
`brokenShardBucket` whose own distribution is empty, has status 500, which is
not a key of the default distribution. -/
theorem determineStatus_error_status_source_counterexample :
    bareErrorConfig.Generator.Defaults.ErrorStatusDistribution = [] ∧
    brokenShardBucket.ErrorStatusDistribution = [] ∧
    (determineStatus (fun _ => bareErrorConfig)
      (NewLogGenerator (fun _ => bareErrorConfig) 0 (constRng (1 / 4) 0) plainRuntime).1
      plainRuntime (some brokenShardBucket)).1 = (true, 500) ∧
    (determineStatus (fun _ => bareErrorConfig)
      (NewLogGenerator (fun _ => bareErrorConfig) 0 (constRng (1 / 4) 0) plainRuntime).1
      plainRuntime none).1 = (true, 500) ∧
    ¬ ((500 : Int) ∈ bareErrorConfig.Generator.Defaults.ErrorStatusDistribution.keys) := by
  refine ⟨rfl, rfl, ?_, ?_, ?_⟩
  · simp only [determineStatus, Rng.Float64, NewLogGenerator_cfg, NewLogGenerator_rng]
    norm_num [constRng, bareErrorConfig, zeroConfig, brokenShardBucket,
      selectStatusFromDistribution, selectStatusFromDistribution.loop, Runtime.rangeMap,
      plainRuntime]
  · simp only [determineStatus, Rng.Float64, NewLogGenerator_cfg, NewLogGenerator_rng]
    norm_num [constRng, bareErrorConfig, zeroConfig, selectStatusFromDistribution,
      selectStatusFromDistribution.loop, Runtime.rangeMap, plainRuntime]
  · simp [bareErrorConfig, zeroConfig, GoMap.keys]

/-- C10, amended. Whenever `determineStatus` reports an error, for every draw
and every order in which the map is visited: with an override whose
distribution is non-empty the status is a key of the override's distribution;
with no override, or one whose distribution is empty, the status is a key of
the default distribution when that is non-empty, and 500 when it is empty. -/
theorem determineStatus_error_status_source (mem : Heap) (lg : LogGenerator) (rt : Runtime)
    (problematic : Option ProblematicBucket) (hfair : rt.Fair)
    (herr : (determineStatus mem lg rt problematic).1.1 = true) :
    (∀ p, problematic = some p → p.ErrorStatusDistribution ≠ [] →
      (determineStatus mem lg rt problematic).1.2 ∈ p.ErrorStatusDistribution.keys) ∧
    ((problematic = none ∨ ∃ p, problematic = some p ∧ p.ErrorStatusDistribution = []) →
      ((mem lg.cfg).Generator.Defaults.ErrorStatusDistribution ≠ [] →
        (determineStatus mem lg rt problematic).1.2 ∈
          (mem lg.cfg).Generator.Defaults.ErrorStatusDistribution.keys) ∧
      ((mem lg.cfg).Generator.Defaults.ErrorStatusDistribution = [] →
        (determineStatus mem lg rt problematic).1.2 = 500)) := by
  rw [determineStatus_error_status mem lg rt problematic herr]
  constructor
  · rintro p rfl hp
    simp only [Option.elim, hp, if_false]
    exact selectStatusFromDistribution_mem_keys _ rt _ hfair hp
  · intro hcase
    have hdef : (problematic.elim (mem lg.cfg).Generator.Defaults.ErrorStatusDistribution
        fun p =>
          if p.ErrorStatusDistribution = []
          then (mem lg.cfg).Generator.Defaults.ErrorStatusDistribution
          else p.ErrorStatusDistribution)
        = (mem lg.cfg).Generator.Defaults.ErrorStatusDistribution := by
      rcases hcase with rfl | ⟨p, rfl, hp⟩
      · rfl
      · simp only [Option.elim, hp, if_true]
    rw [hdef]
    constructor
    · intro hne
      exact selectStatusFromDistribution_mem_keys _ rt _ hfair hne
    · intro hnil
      rw [hnil]
      exact selectStatusFromDistribution_nil _ rt hfair

/-- The witness of C10: `fullErrorConfig` without an override, every draw 1/2. -/
theorem determineStatus_error_status_source_witness :
    plainRuntime.Fair ∧
    (determineStatus (fun _ => fullErrorConfig)
      (NewLogGenerator (fun _ => fullErrorConfig) 0 (constRng (1 / 2) 0) plainRuntime).1
      plainRuntime none).1.1 = true ∧
    (determineStatus (fun _ => fullErrorConfig)
      (NewLogGenerator (fun _ => fullErrorConfig) 0 (constRng (1 / 2) 0) plainRuntime).1
      plainRuntime none).1.2 ∈ GoMap.keys [((500 : Int), (100 : ℚ))] :=
  have herr : (determineStatus (fun _ => fullErrorConfig)
      (NewLogGenerator (fun _ => fullErrorConfig) 0 (constRng (1 / 2) 0) plainRuntime).1
      plainRuntime none).1.1 = true := by
    rw [determineStatus_isError]
    norm_num [NewLogGenerator_cfg, NewLogGenerator_rng, constRng, fullErrorConfig]
  ⟨plainRuntime_fair, herr,
    ((determineStatus_error_status_source (fun _ => fullErrorConfig)
      (NewLogGenerator (fun _ => fullErrorConfig) 0 (constRng (1 / 2) 0) plainRuntime).1
      plainRuntime none plainRuntime_fair herr).2 (Or.inl rfl)).1 (by simp [fullErrorConfig])⟩

/-! ## Event generation -/

theorem Rng.Unit_advance (r : Rng) (h : r.Unit) : r.advance.Unit := fun i => h (i + 1)

theorem selectBucket_total (lg : LogGenerator) (hne : lg.buckets ≠ []) :
    ∃ b, selectBucket lg = some (b, { lg with rng := lg.rng.advance }) ∧ b ∈ lg.buckets := by
  have hpos : 0 < lg.buckets.length := List.length_pos.mpr hne
  have hlt : (lg.rng.draws 0).int % lg.buckets.length < lg.buckets.length := Nat.mod_lt _ hpos
  refine ⟨lg.buckets[(lg.rng.draws 0).int % lg.buckets.length], ?_, List.getElem_mem _⟩
  simp [selectBucket, Rng.Intn, Nat.pos_iff_ne_zero.mp hpos, List.getElem?_eq_getElem hlt]

theorem generateObjectPath_total (lg : LogGenerator) (bucket : String) :
    ∃ o, generateObjectPath lg bucket = some (o, { lg with rng := lg.rng.advance }) ∧
      o ∈ objectPaths := by
  have hpos : 0 < objectPaths.length := by decide
  have hlt : (lg.rng.draws 0).int % objectPaths.length < objectPaths.length := Nat.mod_lt _ hpos
  refine ⟨objectPaths[(lg.rng.draws 0).int % objectPaths.length], ?_, List.getElem_mem _⟩
  simp [generateObjectPath, Rng.Intn, Nat.pos_iff_ne_zero.mp hpos, List.getElem?_eq_getElem hlt]

theorem selectUser_total (lg : LogGenerator) (hne : lg.users ≠ []) :
    ∃ u, selectUser lg = some (u, { lg with rng := lg.rng.advance }) ∧ u ∈ lg.users := by
  have hpos : 0 < lg.users.length := List.length_pos.mpr hne
  have hlt : (lg.rng.draws 0).int % lg.users.length < lg.users.length := Nat.mod_lt _ hpos
  refine ⟨lg.users[(lg.rng.draws 0).int % lg.users.length], ?_, List.getElem_mem _⟩
  simp [selectUser, Rng.Intn, Nat.pos_iff_ne_zero.mp hpos, List.getElem?_eq_getElem hlt]

theorem selectHost_total (lg : LogGenerator) (hne : lg.hosts ≠ []) :
    ∃ h, selectHost lg = some (h, { lg with rng := lg.rng.advance }) ∧ h ∈ lg.hosts := by
  have hpos : 0 < lg.hosts.length := List.length_pos.mpr hne
  have hlt : (lg.rng.draws 0).int % lg.hosts.length < lg.hosts.length := Nat.mod_lt _ hpos
  refine ⟨lg.hosts[(lg.rng.draws 0).int % lg.hosts.length], ?_, List.getElem_mem _⟩
  simp [selectHost, Rng.Intn, Nat.pos_iff_ne_zero.mp hpos, List.getElem?_eq_getElem hlt]

theorem selectIP_total (lg : LogGenerator) (hne : lg.ips ≠ []) :
    ∃ a, selectIP lg = some (a, { lg with rng := lg.rng.advance }) ∧ a ∈ lg.ips := by
  have hpos : 0 < lg.ips.length := List.length_pos.mpr hne
  have hlt : (lg.rng.draws 0).int % lg.ips.length < lg.ips.length := Nat.mod_lt _ hpos
  refine ⟨lg.ips[(lg.rng.draws 0).int % lg.ips.length], ?_, List.getElem_mem _⟩
  simp [selectIP, Rng.Intn, Nat.pos_iff_ne_zero.mp hpos, List.getElem?_eq_getElem hlt]

/-- The target step of `GenerateLog` succeeds and only moves the source on. -/
theorem GenerateLog_target_total (lg : LogGenerator) (op : OperationInfo)
    (hne : lg.buckets ≠ []) (hu : lg.rng.Unit) :
    ∃ bucket object rng, GenerateLog.target lg op
        = some (bucket, object, { lg with rng := rng }) ∧ rng.Unit := by
  unfold GenerateLog.target
  by_cases hb : op.HasBucket = true
  · obtain ⟨b, hsel, _⟩ := selectBucket_total lg hne
    by_cases ho : op.HasObject = true
    · obtain ⟨o, hobj, _⟩ := generateObjectPath_total { lg with rng := lg.rng.advance } b
      exact ⟨b, o, lg.rng.advance.advance, by simp [hb, ho, hsel, hobj],
        Rng.Unit_advance _ (Rng.Unit_advance _ hu)⟩
    · exact ⟨b, "", lg.rng.advance, by simp [hb, ho, hsel], Rng.Unit_advance _ hu⟩
  · exact ⟨"", "", lg.rng, by simp [hb], hu⟩

/-- The method `buildURI` succeeds and only moves the sources on. -/
theorem buildURI_total (lg : LogGenerator) (rt : Runtime) (op : OperationInfo)
    (bucket object : String) (hu : lg.rng.Unit) :
    ∃ uri rng rt1, buildURI lg rt op bucket object = some (uri, { lg with rng := rng }, rt1) ∧
      rng.Unit := by
  unfold buildURI
  simp only [Rng.Intn, Runtime.newUUID, show ¬ ((10 : Nat) = 0) by decide, if_false]
  split_ifs <;>
    first
    | exact ⟨_, _, _, rfl, hu⟩
    | exact ⟨_, _, _, rfl, Rng.Unit_advance _ hu⟩

/-- One call of `GenerateLog` on a generator with a weight for no more than each
catalog entry and non-empty pools: every step succeeds, and the event is
assembled from the results of the steps, which are named here. -/
theorem GenerateLog_eq (mem : Heap) (lg : LogGenerator) (rt : Runtime)
    (hlen : lg.operationWeights.length ≤ lg.operations.length)
    (hops : 0 < lg.operations.length)
    (hb : lg.buckets ≠ []) (husers : lg.users ≠ []) (hh : lg.hosts ≠ []) (hi : lg.ips ≠ [])
    (hu : lg.rng.Unit) :
    ∃ (op : OperationInfo) (bucket object : String) (rng2 : Rng) (isError : Bool)
      (status : Int) (rt1 : Runtime) (duration : ℚ) (uri : String) (rng5 : Rng)
      (rt2 : Runtime) (user ip host : String),
      op ∈ lg.operations ∧
      selectOperation lg = some (op, { lg with rng := lg.rng.advance }) ∧
      GenerateLog.target { lg with rng := lg.rng.advance } op
        = some (bucket, object, { lg with rng := rng2 }) ∧
      rng2.Unit ∧
      determineStatus mem { lg with rng := rng2 } rt ((mem lg.cfg).GetProblematicBucket bucket)
        = ((isError, status), { lg with rng := rng2.advance.advance }, rt1) ∧
      generateDuration mem { lg with rng := rng2.advance.advance } isError
          ((mem lg.cfg).GetProblematicBucket bucket)
        = (duration, { lg with rng := rng2.advance.advance.advance }) ∧
      buildURI { lg with rng := rng2.advance.advance.advance } rt1 op bucket object
        = some (uri, { lg with rng := rng5 }, rt2) ∧
      user ∈ lg.users ∧ ip ∈ lg.ips ∧ host ∈ lg.hosts ∧
      rng5.advance.advance.advance.Unit ∧
      GenerateLog mem lg rt = some
        (({ Timestamp := rt2.clock 0,
            Level := if status ≥ 500 ∨ status = 401 then "error" else "info",
            Msg := "request", RequestID := rt2.uuids 0, RemoteHost := ip,
            Method := op.Method, Host := host, URI := uri, Namespace := "",
            Duration := mathRound (duration * 1000) / 1000, API := op.API, User := user,
            Status := status, Bucket := bucket, Object := object }, none),
          { lg with rng := rng5.advance.advance.advance },
          (rt2.timestamp.2).newUUID.2) := by
  obtain ⟨op, hsel, hop⟩ := selectOperation_mem lg hlen hops
  obtain ⟨bucket, object, rng2, htgt, hu2⟩ :=
    GenerateLog_target_total { lg with rng := lg.rng.advance } op hb (Rng.Unit_advance _ hu)
  have hgen := determineStatus_generator mem { lg with rng := rng2 } rt
    ((mem lg.cfg).GetProblematicBucket bucket)
  rcases hds : determineStatus mem { lg with rng := rng2 } rt
    ((mem lg.cfg).GetProblematicBucket bucket) with ⟨⟨isError, status⟩, lg3, rt1⟩
  rw [hds] at hgen
  simp only at hgen
  subst hgen
  rcases hdur : generateDuration mem { lg with rng := rng2.advance.advance } isError
    ((mem lg.cfg).GetProblematicBucket bucket) with ⟨duration, lg4⟩
  have hdur2 : lg4 = { lg with rng := rng2.advance.advance.advance } := by
    have : (generateDuration mem { lg with rng := rng2.advance.advance } isError
      ((mem lg.cfg).GetProblematicBucket bucket)).2 = lg4 := by rw [hdur]
    rw [← this]
    unfold generateDuration
    simp only [Rng.Float64]
  subst hdur2
  have hu4 : rng2.advance.advance.advance.Unit :=
    Rng.Unit_advance _ (Rng.Unit_advance _ (Rng.Unit_advance _ hu2))
  obtain ⟨uri, rng5, rt2, huri, hu5⟩ :=
    buildURI_total { lg with rng := rng2.advance.advance.advance } rt1 op bucket object hu4
  obtain ⟨user, huser, huserm⟩ := selectUser_total { lg with rng := rng5 } husers
  obtain ⟨ip, hip, hipm⟩ := selectIP_total { lg with rng := rng5.advance } hi
  obtain ⟨host, hhost, hhostm⟩ := selectHost_total { lg with rng := rng5.advance.advance } hh
  dsimp only at htgt huri huser hip hhost
  refine ⟨op, bucket, object, rng2, isError, status, rt1, duration, uri, rng5, rt2, user, ip,
    host, hop, hsel, htgt, hu2, hds, hdur, huri, huserm, hipm, hhostm,
    Rng.Unit_advance _ (Rng.Unit_advance _ (Rng.Unit_advance _ hu5)), ?_⟩
  simp only [GenerateLog, hsel, htgt, hds, hdur, huri, huser, hip, hhost, bind, Option.bind,
    Runtime.timestamp, Runtime.newUUID, pure]
  by_cases hbe : bucket = "" <;> by_cases hoe : object = "" <;> simp [hbe, hoe]

/-- The user-identifier loop keeps the length of the slice it fills. -/
theorem initData_loop_length (n i : Nat) (users : List String) (rt : Runtime) :
    (initData.loop n i users rt).1.length = users.length := by
  induction n generalizing i users rt with
  | zero => rfl
  | succ n ih =>
    simp only [initData.loop, generateUserID]
    rw [ih, List.length_set]

/-- The generator that `NewLogGenerator` returns, field by field. -/
theorem NewLogGenerator_fst (mem : Heap) (c : Addr) (rng : Rng) (rt : Runtime) :
    (NewLogGenerator mem c rng rt).1 =
      { cfg := c, rng := rng, operations := operationCatalog,
        operationWeights := (initOperations mem (blankGenerator c rng)).operationWeights,
        totalWeight := (initOperations mem (blankGenerator c rng)).totalWeight,
        buckets := ["data-bucket", "backup-bucket", "logs-bucket", "temp-bucket",
          "archive-bucket", "broken-shard-bucket", "slow-sync-bucket",
          "production-bucket", "staging-bucket", "test-bucket"],
        users := (initData.loop 20 0 (List.replicate 20 "") rt).1,
        hosts := ["s3.example.com", "s3-gw.production.local",
          "storage.company.com", "object-store.internal"],
        ips := ["192.168.1.100", "10.0.0.50", "172.16.0.25",
          "10.178.152.209", "192.168.1.200", "10.0.0.75",
          "172.16.0.100", "192.168.1.150"] } := by
  simp only [NewLogGenerator, initData, initOperations, blankGenerator]

theorem NewLogGenerator_operations (mem : Heap) (c : Addr) (rng : Rng) (rt : Runtime) :
    (NewLogGenerator mem c rng rt).1.operations = operationCatalog := by
  rw [NewLogGenerator_fst]

theorem NewLogGenerator_operationWeights (mem : Heap) (c : Addr) (rng : Rng) (rt : Runtime) :
    (NewLogGenerator mem c rng rt).1.operationWeights
      = (initOperations mem (blankGenerator c rng)).operationWeights := by
  rw [NewLogGenerator_fst]

theorem NewLogGenerator_operationWeights_length (mem : Heap) (c : Addr) (rng : Rng)
    (rt : Runtime) : (NewLogGenerator mem c rng rt).1.operationWeights.length = 16 := by
  rw [NewLogGenerator_operationWeights, initOperations_operationWeights, List.length_map]
  rfl

theorem NewLogGenerator_users (mem : Heap) (c : Addr) (rng : Rng) (rt : Runtime) :
    (NewLogGenerator mem c rng rt).1.users
      = (initData.loop 20 0 (List.replicate 20 "") rt).1 := by
  rw [NewLogGenerator_fst]

/-- The pools of a constructed generator are not empty. -/
theorem NewLogGenerator_pools (mem : Heap) (c : Addr) (rng : Rng) (rt : Runtime) :
    (NewLogGenerator mem c rng rt).1.buckets ≠ [] ∧
    (NewLogGenerator mem c rng rt).1.users ≠ [] ∧
    (NewLogGenerator mem c rng rt).1.hosts ≠ [] ∧
    (NewLogGenerator mem c rng rt).1.ips ≠ [] := by
  refine ⟨?_, ?_, ?_, ?_⟩
  · rw [NewLogGenerator_fst]
    simp
  · rw [NewLogGenerator_users]
    intro h
    have hl := initData_loop_length 20 0 (List.replicate 20 "") rt
    rw [h, List.length_replicate] at hl
    cases hl
  · rw [NewLogGenerator_fst]
    simp
  · rw [NewLogGenerator_fst]
    simp

/-- A generator with a later source is the generator constructed with it. -/
theorem NewLogGenerator_with_rng (mem : Heap) (c : Addr) (rng rng1 : Rng) (rt : Runtime) :
    { (NewLogGenerator mem c rng rt).1 with rng := rng1 } = (NewLogGenerator mem c rng1 rt).1 := by
  simp only [NewLogGenerator_fst, initOperations, blankGenerator]

/-- C8. With `ErrorPercent` 0 in the configuration the engine points to, and
draws in `[0, 1)`, `GenerateLog` on an engine built by `NewLogGenerator` returns
an event (and no error) whose `Status` is 200 or 204 and whose `Level` is
"info", whichever bucket is drawn and whether or not it has an override; the
engine it leaves is the same engine with a later source, still in `[0, 1)`. -/
theorem GenerateLog_zero_error_percent (mem0 mem : Heap) (c : Addr) (rng : Rng)
    (rt0 rt : Runtime)
    (hEP : (mem c).Generator.Defaults.ErrorPercent = 0) (hu : rng.Unit) :
    ∃ (entry : LogEntry) (rng1 : Rng) (rt1 : Runtime),
      GenerateLog mem (NewLogGenerator mem0 c rng rt0).1 rt
        = some ((entry, none), (NewLogGenerator mem0 c rng1 rt0).1, rt1) ∧
      rng1.Unit ∧ (entry.Status = 200 ∨ entry.Status = 204) ∧ entry.Level = "info" := by
  obtain ⟨hpb, hpu, hph, hpi⟩ := NewLogGenerator_pools mem0 c rng rt0
  obtain ⟨op, bucket, object, rng2, isError, status, rt1, duration, uri, rng5, rt2, user, ip,
      host, -, -, -, hu2, hds, -, -, -, -, -, hu5, hgen⟩ :=
    GenerateLog_eq mem (NewLogGenerator mem0 c rng rt0).1 rt
      (by rw [NewLogGenerator_operationWeights_length, NewLogGenerator_operations]; decide)
      (by rw [NewLogGenerator_operations]; decide)
      hpb hpu hph hpi hu
  rw [NewLogGenerator_with_rng] at hgen
  have hnot : ¬ (determineStatus mem { (NewLogGenerator mem0 c rng rt0).1 with rng := rng2 } rt
      ((mem (NewLogGenerator mem0 c rng rt0).1.cfg).GetProblematicBucket bucket)).1.1 = true := by
    rw [determineStatus_isError]
    simp only [NewLogGenerator_cfg, hEP, zero_mul]
    have := (hu2 0).1
    linarith
  have hfalse : (determineStatus mem { (NewLogGenerator mem0 c rng rt0).1 with rng := rng2 } rt
      ((mem (NewLogGenerator mem0 c rng rt0).1.cfg).GetProblematicBucket bucket)).1.1 = false := by
    simpa using hnot
  have hstatus := determineStatus_success_status mem _ rt _ hfalse
  rw [hds] at hstatus
  simp only at hstatus
  have h24 : status = 200 ∨ status = 204 := by
    rw [hstatus]
    split_ifs
    · exact Or.inr rfl
    · exact Or.inl rfl
  refine ⟨_, rng5.advance.advance.advance, _, hgen, hu5, h24, ?_⟩
  rcases h24 with h | h <;> simp [h]

/-- The witness of C8: the zero configuration (`ErrorPercent` 0), every draw 1/2. -/
theorem GenerateLog_zero_error_percent_witness :
    (zeroConfig.Generator.Defaults.ErrorPercent = 0 ∧ (constRng (1 / 2) 0).Unit) ∧
    ∃ (entry : LogEntry) (rng1 : Rng) (rt1 : Runtime),
      GenerateLog (fun _ => zeroConfig)
          (NewLogGenerator (fun _ => zeroConfig) 0 (constRng (1 / 2) 0) plainRuntime).1
          plainRuntime
        = some ((entry, none),
            (NewLogGenerator (fun _ => zeroConfig) 0 rng1 plainRuntime).1, rt1) ∧
      rng1.Unit ∧ (entry.Status = 200 ∨ entry.Status = 204) ∧ entry.Level = "info" :=
  ⟨⟨rfl, constRng_unit (1 / 2) 0 (by norm_num) (by norm_num)⟩,
    GenerateLog_zero_error_percent (fun _ => zeroConfig) (fun _ => zeroConfig) 0
      (constRng (1 / 2) 0) plainRuntime plainRuntime rfl
      (constRng_unit (1 / 2) 0 (by norm_num) (by norm_num))⟩

/-- An instance of C2 in each direction: a missing file leaves memory as it
was, and `config.yaml` replaces the snapshot by the loaded configuration. -/
theorem ReloadConfig_all_or_nothing_witness :
    ReloadConfig sampleLoader (fun _ => fullErrorConfig) 0 "missing.yaml"
      = (fun _ => fullErrorConfig, some "failed to read config file: no such file") ∧
    (ReloadConfig sampleLoader (fun _ => fullErrorConfig) 0 "config.yaml").1 0
      = (validateAndSetDefaults zeroConfig).1 :=
  ⟨(ReloadConfig_all_or_nothing sampleLoader (fun _ => fullErrorConfig) 0 "missing.yaml").1 _
      (by simp [LoadConfig, sampleLoader]),
    ((ReloadConfig_all_or_nothing sampleLoader (fun _ => fullErrorConfig) 0 "config.yaml").2 _
      (by simp [LoadConfig, sampleLoader, validateAndSetDefaults_eq])).2.1⟩

/-! ## Events, durations and URIs -/

/-- The operation weights of a constructed generator are no more than its
catalog entries, and the catalog is not empty. -/
theorem NewLogGenerator_ready (mem : Heap) (c : Addr) (rng : Rng) (rt : Runtime) :
    (NewLogGenerator mem c rng rt).1.operationWeights.length
      ≤ (NewLogGenerator mem c rng rt).1.operations.length ∧
    0 < (NewLogGenerator mem c rng rt).1.operations.length := by
  rw [NewLogGenerator_operationWeights_length, NewLogGenerator_operations]
  exact ⟨by decide, by decide⟩

/-- C11. With draws in `[0, 1)`, `GenerateLog` on an engine built by
`NewLogGenerator` returns an event whose `Level` is "error" exactly when its
`Status` is at least 500 or equal to 401, and "info" otherwise; so an event
with status 403 or 404 has level "info". -/
theorem GenerateLog_level (mem0 mem : Heap) (c : Addr) (rng : Rng) (rt0 rt : Runtime)
    (hu : rng.Unit) :
    ∃ (entry : LogEntry) (rng1 : Rng) (rt1 : Runtime),
      GenerateLog mem (NewLogGenerator mem0 c rng rt0).1 rt
        = some ((entry, none), (NewLogGenerator mem0 c rng1 rt0).1, rt1) ∧
      (entry.Level = "error" ↔ entry.Status ≥ 500 ∨ entry.Status = 401) ∧
      (¬ (entry.Status ≥ 500 ∨ entry.Status = 401) → entry.Level = "info") ∧
      (entry.Status = 403 ∨ entry.Status = 404 → entry.Level = "info") := by
  obtain ⟨hpb, hpu, hph, hpi⟩ := NewLogGenerator_pools mem0 c rng rt0
  obtain ⟨hlen, hops⟩ := NewLogGenerator_ready mem0 c rng rt0
  obtain ⟨op, bucket, object, rng2, isError, status, rt1, duration, uri, rng5, rt2, user, ip,
      host, -, -, -, -, -, -, -, -, -, -, -, hgen⟩ :=
    GenerateLog_eq mem (NewLogGenerator mem0 c rng rt0).1 rt hlen hops hpb hpu hph hpi hu
  rw [NewLogGenerator_with_rng] at hgen
  refine ⟨_, _, _, hgen, ?_, ?_, ?_⟩
  · by_cases h : status ≥ 500 ∨ status = 401
    · simp [h]
    · simp [h]
  · intro h
    simp [h]
  · rintro (h | h)
    · dsimp only at h
      subst h
      simp
    · dsimp only at h
      subst h
      simp

/-- The witness of C11: `fullErrorConfig`, every draw 1/2. -/
theorem GenerateLog_level_witness :
    (constRng (1 / 2) 0).Unit ∧
    ∃ (entry : LogEntry) (rng1 : Rng) (rt1 : Runtime),
      GenerateLog (fun _ => fullErrorConfig)
          (NewLogGenerator (fun _ => fullErrorConfig) 0 (constRng (1 / 2) 0) plainRuntime).1
          plainRuntime
        = some ((entry, none),
            (NewLogGenerator (fun _ => fullErrorConfig) 0 rng1 plainRuntime).1, rt1) ∧
      (entry.Level = "error" ↔ entry.Status ≥ 500 ∨ entry.Status = 401) ∧
      (¬ (entry.Status ≥ 500 ∨ entry.Status = 401) → entry.Level = "info") ∧
      (entry.Status = 403 ∨ entry.Status = 404 → entry.Level = "info") :=
  ⟨constRng_unit (1 / 2) 0 (by norm_num) (by norm_num),
    GenerateLog_level (fun _ => fullErrorConfig) (fun _ => fullErrorConfig) 0
      (constRng (1 / 2) 0) plainRuntime plainRuntime
      (constRng_unit (1 / 2) 0 (by norm_num) (by norm_num))⟩

/-- C13. For the same draw, the duration with override `p` is the duration
without an override times `p.DurationMultiplier`; with the override
`slow-sync-bucket` of multiplier 5 it is 5 times `min + u * (max - min)` for
the range of the outcome. -/
theorem generateDuration_multiplier (mem : Heap) (lg : LogGenerator) (isError : Bool)
    (p : ProblematicBucket) (errorMultiplier : ℚ) (dist : GoMap Int ℚ) :
    (generateDuration mem lg isError (some p)).1
      = (generateDuration mem lg isError none).1 * p.DurationMultiplier ∧
    (generateDuration mem lg isError (some ⟨"slow-sync-bucket", errorMultiplier, 5, dist⟩)).1
      = ((if isError then (mem lg.cfg).Generator.Defaults.Duration.ErrorMin
            else (mem lg.cfg).Generator.Defaults.Duration.SuccessMin)
          + (lg.rng.draws 0).float *
            ((if isError then (mem lg.cfg).Generator.Defaults.Duration.ErrorMax
                else (mem lg.cfg).Generator.Defaults.Duration.SuccessMax)
              - (if isError then (mem lg.cfg).Generator.Defaults.Duration.ErrorMin
                else (mem lg.cfg).Generator.Defaults.Duration.SuccessMin))) * 5 := by
  cases isError <;> simp [generateDuration, Rng.Float64]

/-- When the configuration the engine points to has `ErrorPercent` 100, a
distribution with the single key `k` and no overrides, every event of
`GenerateLog` has status `k`. -/
theorem GenerateLog_single_status (mem0 mem : Heap) (c : Addr) (rng : Rng)
    (rt0 rt : Runtime) (k : Int) (w : ℚ)
    (hEP : (mem c).Generator.Defaults.ErrorPercent = 100)
    (hdist : (mem c).Generator.Defaults.ErrorStatusDistribution = [(k, w)])
    (hpb : (mem c).Generator.ProblematicBuckets = [])
    (hu : rng.Unit) (hfair : rt.Fair) :
    ∃ (entry : LogEntry) (rng1 : Rng) (rt1 : Runtime),
      GenerateLog mem (NewLogGenerator mem0 c rng rt0).1 rt
        = some ((entry, none), (NewLogGenerator mem0 c rng1 rt0).1, rt1) ∧
      entry.Status = k ∧
      entry.Level = (if k ≥ 500 ∨ k = 401 then "error" else "info") := by
  obtain ⟨hb, hpu, hph, hpi⟩ := NewLogGenerator_pools mem0 c rng rt0
  obtain ⟨hlen, hops⟩ := NewLogGenerator_ready mem0 c rng rt0
  have hcfg := NewLogGenerator_cfg mem0 c rng rt0
  have hrng : (NewLogGenerator mem0 c rng rt0).1.rng.Unit := by
    rw [NewLogGenerator_rng]
    exact hu
  have hw := fun r => NewLogGenerator_with_rng mem0 c rng r rt0
  generalize (NewLogGenerator mem0 c rng rt0).1 = lg at hb hpu hph hpi hlen hops hcfg hrng hw ⊢
  obtain ⟨op, bucket, object, rng2, isError, status, rt1, duration, uri, rng5, rt2, user, ip,
      host, -, -, -, hu2, hds, -, -, -, -, -, -, hgen⟩ :=
    GenerateLog_eq mem lg rt hlen hops hb hpu hph hpi hrng
  rw [hw] at hgen
  have hnone : (mem lg.cfg).GetProblematicBucket bucket = none := by
    rw [hcfg]
    simp [Config.GetProblematicBucket, hpb, GetProblematicBucket.loop]
  rw [hnone] at hds
  have herr : (determineStatus mem { lg with rng := rng2 } rt none).1.1 = true := by
    rw [determineStatus_isError]
    simp only [hcfg, hEP, mul_one]
    have := (hu2 0).2
    linarith
  have hstatus := determineStatus_error_status mem _ rt none herr
  rw [hds] at hstatus
  simp only [Option.elim, hcfg, hdist] at hstatus
  have hk : ∀ X, (selectStatusFromDistribution X rt [(k, w)]).1 = k := by
    intro X
    have := selectStatusFromDistribution_mem_keys X rt [(k, w)] hfair (by simp)
    simpa [GoMap.keys] using this
  have hkk : status = k := by
    rw [hstatus]
    exact hk _
  subst hkk
  exact ⟨_, _, _, hgen, rfl, rfl⟩

/-- C18. When the configuration the engine points to has `ErrorPercent` 100,
the distribution `500: 100` and no overrides (whatever its other fields, `Rate`
10 included), with draws in `[0, 1)` and any visiting order of the map,
`GenerateLog` returns an event with `Status` 500 and `Level` "error". -/
theorem GenerateLog_all_errors_500 (mem0 mem : Heap) (c : Addr) (rng : Rng)
    (rt0 rt : Runtime)
    (hEP : (mem c).Generator.Defaults.ErrorPercent = 100)
    (hdist : (mem c).Generator.Defaults.ErrorStatusDistribution = [(500, 100)])
    (hpb : (mem c).Generator.ProblematicBuckets = [])
    (hu : rng.Unit) (hfair : rt.Fair) :
    ∃ (entry : LogEntry) (rng1 : Rng) (rt1 : Runtime),
      GenerateLog mem (NewLogGenerator mem0 c rng rt0).1 rt
        = some ((entry, none), (NewLogGenerator mem0 c rng1 rt0).1, rt1) ∧
      entry.Status = 500 ∧ entry.Level = "error" := by
  obtain ⟨entry, rng1, rt1, hgen, hstatus, hlevel⟩ :=
    GenerateLog_single_status mem0 mem c rng rt0 rt 500 100 hEP hdist hpb hu hfair
  exact ⟨entry, rng1, rt1, hgen, hstatus, by rw [hlevel]; simp⟩

/-- The witness of C18: the configuration literal `pureErrorConfig`, every draw
1/2, maps visited in their listed order. -/
theorem GenerateLog_all_errors_500_witness :
    (pureErrorConfig.Generator.Rate = 10 ∧
      pureErrorConfig.Generator.Defaults.ErrorPercent = 100 ∧
      pureErrorConfig.Generator.Defaults.ErrorStatusDistribution = [(500, 100)] ∧
      pureErrorConfig.Generator.ProblematicBuckets = []) ∧
    ∃ (entry : LogEntry) (rng1 : Rng) (rt1 : Runtime),
      GenerateLog (fun _ => pureErrorConfig)
          (NewLogGenerator (fun _ => pureErrorConfig) 0 (constRng (1 / 2) 0) plainRuntime).1
          plainRuntime
        = some ((entry, none),
            (NewLogGenerator (fun _ => pureErrorConfig) 0 rng1 plainRuntime).1, rt1) ∧
      entry.Status = 500 ∧ entry.Level = "error" :=
  ⟨⟨rfl, rfl, rfl, rfl⟩,
    GenerateLog_all_errors_500 (fun _ => pureErrorConfig) (fun _ => pureErrorConfig) 0
      (constRng (1 / 2) 0) plainRuntime plainRuntime rfl rfl rfl
      (constRng_unit (1 / 2) 0 (by norm_num) (by norm_num)) plainRuntime_fair⟩

/-- The value of `math.Round` is an integer. -/
theorem mathRound_int (x : ℚ) : ∃ k : ℤ, mathRound x = k := by
  unfold mathRound
  split_ifs
  · exact ⟨_, rfl⟩
  · exact ⟨-⌊-x + 1 / 2⌋, by push_cast; rfl⟩

/-- C12 as stated fails on validated configurations. (a) With the inverted
success range of `invertedRangeConfig` and the draw 1/2 the duration is 3/4,
below `1 * min = 1`.  (b) With the default success range and the override
`negativeDurationBucket` (multiplier -1) the duration is -11/40, below
`m * min = -1/20`. -/
theorem generateDuration_bounds_counterexample :
    ((validateAndSetDefaults invertedRangeConfig).1 = invertedRangeConfig ∧
      (generateDuration (fun _ => invertedRangeConfig)
        (blankGenerator 0 (constRng (1 / 2) 0)) false none).1 = 3 / 4 ∧
      ¬ (1 * invertedRangeConfig.Generator.Defaults.Duration.SuccessMin ≤ (3 / 4 : ℚ))) ∧
    ((validateAndSetDefaults fullErrorConfig).1 = fullErrorConfig ∧
      (generateDuration (fun _ => fullErrorConfig)
        (blankGenerator 0 (constRng (1 / 2) 0)) false (some negativeDurationBucket)).1
        = -11 / 40 ∧
      ¬ (negativeDurationBucket.DurationMultiplier
          * fullErrorConfig.Generator.Defaults.Duration.SuccessMin ≤ (-11 / 40 : ℚ))) := by
  refine ⟨⟨?_, ?_, ?_⟩, ?_, ?_, ?_⟩
  · rw [validateAndSetDefaults_eq]
    simp [invertedRangeConfig, fullErrorConfig]
  · norm_num [generateDuration, Rng.Float64, constRng, blankGenerator, invertedRangeConfig,
      fullErrorConfig]
  · norm_num [invertedRangeConfig, fullErrorConfig]
  · rw [validateAndSetDefaults_eq]
    simp [fullErrorConfig]
  · norm_num [generateDuration, Rng.Float64, constRng, blankGenerator, fullErrorConfig,
      negativeDurationBucket]
  · norm_num [fullErrorConfig, negativeDurationBucket]

/-- C12, amended. With a draw `u` in `[0, 1)`, when the range `(min, max)` of the
outcome (the error range for an error, the success range otherwise) has
`min <= max` and the multiplier `m` (the override's `DurationMultiplier`, or 1
without an override) is not negative, the duration lies in `[m*min, m*max]`;
and `round(duration*1000)/1000` times 1000 is an integer. -/
theorem generateDuration_bounds (mem : Heap) (lg : LogGenerator) (isError : Bool)
    (problematic : Option ProblematicBucket) (min max m : ℚ)
    (hmin : min = if isError then (mem lg.cfg).Generator.Defaults.Duration.ErrorMin
      else (mem lg.cfg).Generator.Defaults.Duration.SuccessMin)
    (hmax : max = if isError then (mem lg.cfg).Generator.Defaults.Duration.ErrorMax
      else (mem lg.cfg).Generator.Defaults.Duration.SuccessMax)
    (hm : m = problematic.elim 1 fun p => p.DurationMultiplier)
    (hu : 0 ≤ (lg.rng.draws 0).float ∧ (lg.rng.draws 0).float < 1)
    (hrange : min ≤ max) (hm0 : 0 ≤ m) :
    m * min ≤ (generateDuration mem lg isError problematic).1 ∧
    (generateDuration mem lg isError problematic).1 ≤ m * max ∧
    ∃ k : ℤ,
      mathRound ((generateDuration mem lg isError problematic).1 * 1000) / 1000 * 1000 = k := by
  have hd : (generateDuration mem lg isError problematic).1
      = (min + (lg.rng.draws 0).float * (max - min)) * m := by
    rw [hmin, hmax, hm]
    cases isError <;> cases problematic <;> simp [generateDuration, Rng.Float64]
  obtain ⟨k, hk⟩ := mathRound_int ((generateDuration mem lg isError problematic).1 * 1000)
  refine ⟨?_, ?_, k, ?_⟩
  · rw [hd, mul_comm m min]
    apply mul_le_mul_of_nonneg_right _ hm0
    have := mul_nonneg hu.1 (sub_nonneg.mpr hrange)
    linarith
  · rw [hd, mul_comm m max]
    apply mul_le_mul_of_nonneg_right _ hm0
    have h1 : (lg.rng.draws 0).float * (max - min) ≤ 1 * (max - min) :=
      mul_le_mul_of_nonneg_right (le_of_lt hu.2) (sub_nonneg.mpr hrange)
    linarith
  · rw [hk]
    field_simp

/-- The witness of C12: the validated `fullErrorConfig`, a success outcome, the
override `slowSyncBucket` (multiplier 5) and the draw 1/2. -/
theorem generateDuration_bounds_witness :
    (5 : ℚ) * (5 / 100) ≤ (generateDuration (fun _ => fullErrorConfig)
      (blankGenerator 0 (constRng (1 / 2) 0)) false (some slowSyncBucket)).1 ∧
    (generateDuration (fun _ => fullErrorConfig)
      (blankGenerator 0 (constRng (1 / 2) 0)) false (some slowSyncBucket)).1 ≤ 5 * (5 / 10) ∧
    ∃ k : ℤ, mathRound ((generateDuration (fun _ => fullErrorConfig)
      (blankGenerator 0 (constRng (1 / 2) 0)) false (some slowSyncBucket)).1 * 1000)
        / 1000 * 1000 = k :=
  generateDuration_bounds (fun _ => fullErrorConfig) (blankGenerator 0 (constRng (1 / 2) 0))
    false (some slowSyncBucket) (5 / 100) (5 / 10) 5 rfl rfl rfl
    (by norm_num [blankGenerator, constRng]) (by norm_num) (by norm_num)

/-- C16 as stated fails: `negativeConfig` keeps its `ErrorPercent` -5 and its
`SuccessMin` -1 through `validateAndSetDefaults`. -/
theorem validateAndSetDefaults_positive_counterexample :
    (validateAndSetDefaults negativeConfig).1.Generator.Defaults.ErrorPercent = -5 ∧
    (validateAndSetDefaults negativeConfig).1.Generator.Defaults.Duration.SuccessMin = -1 ∧
    ¬ (0 < (validateAndSetDefaults negativeConfig).1.Generator.Defaults.ErrorPercent) ∧
    ¬ (0 < (validateAndSetDefaults negativeConfig).1.Generator.Defaults.Duration.SuccessMin) := by
  rw [validateAndSetDefaults_eq]
  norm_num [negativeConfig, zeroConfig]

/-- C16, amended. After `validateAndSetDefaults`, `Rate` is positive, the default
distribution is not empty, and `ErrorPercent` and the four duration bounds are
not zero; each of these five is positive when its input was not negative, and
is the input itself when that was negative. -/
theorem validateAndSetDefaults_positive (cfg : Config) :
    0 < (validateAndSetDefaults cfg).1.Generator.Rate ∧
    (validateAndSetDefaults cfg).1.Generator.Defaults.ErrorStatusDistribution ≠ [] ∧
    ((validateAndSetDefaults cfg).1.Generator.Defaults.ErrorPercent ≠ 0 ∧
      (0 ≤ cfg.Generator.Defaults.ErrorPercent →
        0 < (validateAndSetDefaults cfg).1.Generator.Defaults.ErrorPercent) ∧
      (cfg.Generator.Defaults.ErrorPercent < 0 →
        (validateAndSetDefaults cfg).1.Generator.Defaults.ErrorPercent
          = cfg.Generator.Defaults.ErrorPercent)) ∧
    ((validateAndSetDefaults cfg).1.Generator.Defaults.Duration.SuccessMin ≠ 0 ∧
      (0 ≤ cfg.Generator.Defaults.Duration.SuccessMin →
        0 < (validateAndSetDefaults cfg).1.Generator.Defaults.Duration.SuccessMin) ∧
      (cfg.Generator.Defaults.Duration.SuccessMin < 0 →
        (validateAndSetDefaults cfg).1.Generator.Defaults.Duration.SuccessMin
          = cfg.Generator.Defaults.Duration.SuccessMin)) ∧
    ((validateAndSetDefaults cfg).1.Generator.Defaults.Duration.SuccessMax ≠ 0 ∧
      (0 ≤ cfg.Generator.Defaults.Duration.SuccessMax →
        0 < (validateAndSetDefaults cfg).1.Generator.Defaults.Duration.SuccessMax) ∧
      (cfg.Generator.Defaults.Duration.SuccessMax < 0 →
        (validateAndSetDefaults cfg).1.Generator.Defaults.Duration.SuccessMax
          = cfg.Generator.Defaults.Duration.SuccessMax)) ∧
    ((validateAndSetDefaults cfg).1.Generator.Defaults.Duration.ErrorMin ≠ 0 ∧
      (0 ≤ cfg.Generator.Defaults.Duration.ErrorMin →
        0 < (validateAndSetDefaults cfg).1.Generator.Defaults.Duration.ErrorMin) ∧
      (cfg.Generator.Defaults.Duration.ErrorMin < 0 →
        (validateAndSetDefaults cfg).1.Generator.Defaults.Duration.ErrorMin
          = cfg.Generator.Defaults.Duration.ErrorMin)) ∧
    ((validateAndSetDefaults cfg).1.Generator.Defaults.Duration.ErrorMax ≠ 0 ∧
      (0 ≤ cfg.Generator.Defaults.Duration.ErrorMax →
        0 < (validateAndSetDefaults cfg).1.Generator.Defaults.Duration.ErrorMax) ∧
      (cfg.Generator.Defaults.Duration.ErrorMax < 0 →
        (validateAndSetDefaults cfg).1.Generator.Defaults.Duration.ErrorMax
          = cfg.Generator.Defaults.Duration.ErrorMax)) := by
  have key : ∀ (x d : ℚ), 0 < d →
      ((if x = 0 then d else x) ≠ 0 ∧ (0 ≤ x → 0 < (if x = 0 then d else x)) ∧
        (x < 0 → (if x = 0 then d else x) = x)) := by
    intro x d hd
    by_cases hx : x = 0
    · subst hx
      simp only [if_true]
      exact ⟨ne_of_gt hd, fun _ => hd, fun h => absurd h (lt_irrefl 0)⟩
    · simp only [hx, if_false]
      exact ⟨hx, fun h => lt_of_le_of_ne h (Ne.symm hx), fun _ => trivial⟩
  rw [validateAndSetDefaults_eq]
  refine ⟨?_, ?_, key _ 5 (by norm_num), key _ (5 / 100) (by norm_num),
    key _ (5 / 10) (by norm_num), key _ (1 / 100) (by norm_num), key _ (2 / 10) (by norm_num)⟩
  · show (0 : Int) < if cfg.Generator.Rate ≤ 0 then 10 else cfg.Generator.Rate
    split_ifs with h
    · decide
    · omega
  · show (if cfg.Generator.Defaults.ErrorStatusDistribution = []
      then defaultErrorStatusDistribution
      else cfg.Generator.Defaults.ErrorStatusDistribution) ≠ []
    split_ifs with h
    · simp [defaultErrorStatusDistribution]
    · exact h

/-- C14. `buildURI` returns "/" for an operation that does not address a
bucket; otherwise "/" and the bucket, then "/" and the object when the
operation addresses an object and the object is not empty, then the suffix of
the operation: the two list suffixes, `?partNumber=N&uploadId=<uuid>` with
`1 <= N <= 10` for `UploadPart`, `?uploads`, `?uploadId=<uuid>` for completing
and aborting a multipart upload, and nothing for any other operation.
`ListObjectsV2` on `data-bucket` gives `/data-bucket?list-type=2&max-keys=1000`. -/
theorem buildURI_shape (lg : LogGenerator) (rt : Runtime) (op : OperationInfo)
    (bucket object : String) :
    (op.HasBucket = false → buildURI lg rt op bucket object = some ("/", lg, rt)) ∧
    (op.HasBucket = true →
      ∃ (suffix : String) (lg1 : LogGenerator) (rt1 : Runtime),
        buildURI lg rt op bucket object
          = some ("/" ++ bucket
              ++ (if op.HasObject = true ∧ object ≠ "" then "/" ++ object else "")
              ++ suffix, lg1, rt1) ∧
        (op.API = "ListObjectsV2" → suffix = "?list-type=2&max-keys=1000") ∧
        (op.API = "ListObjectsV1" → suffix = "?max-keys=1000") ∧
        (op.API = "UploadPart" → ∃ n : Nat, 1 ≤ n ∧ n ≤ 10 ∧
          suffix = "?partNumber=" ++ toString n ++ "&uploadId=" ++ rt.uuids 0) ∧
        (op.API = "CreateMultipartUpload" → suffix = "?uploads") ∧
        (op.API = "CompleteMultipartUpload" ∨ op.API = "AbortMultipartUpload" →
          suffix = "?uploadId=" ++ rt.uuids 0) ∧
        (op.API ∉ ["ListObjectsV2", "ListObjectsV1", "UploadPart", "CreateMultipartUpload",
            "CompleteMultipartUpload", "AbortMultipartUpload"] → suffix = "")) ∧
    buildURI lg rt ⟨"ListObjectsV2", "GET", true, false⟩ "data-bucket" object
      = some ("/data-bucket?list-type=2&max-keys=1000", lg, rt) := by
  refine ⟨?_, ?_, ?_⟩
  · intro h
    simp [buildURI, h]
  · intro h
    have hbase : (if (op.HasObject && decide (object ≠ "")) = true
          then "/" ++ bucket ++ "/" ++ object else "/" ++ bucket)
        = "/" ++ bucket ++ (if op.HasObject = true ∧ object ≠ "" then "/" ++ object else "") := by
      by_cases ho : op.HasObject = true <;> by_cases hobj : object = "" <;>
        simp [ho, hobj, String.append_assoc]
    have hmod : (lg.rng.draws 0).int % 10 < 10 := Nat.mod_lt _ (by decide)
    unfold buildURI
    simp only [h, Bool.not_true, Bool.false_eq_true, if_false, hbase, Rng.Intn,
      Runtime.newUUID, show ¬ ((10 : Nat) = 0) by decide]
    by_cases h1 : op.API = "ListObjectsV2"
    · exact ⟨"?list-type=2&max-keys=1000", lg, rt, by simp [h1], by simp [h1]⟩
    by_cases h2 : op.API = "ListObjectsV1"
    · exact ⟨"?max-keys=1000", lg, rt, by simp [h2], by simp [h2]⟩
    by_cases h3 : op.API = "UploadPart"
    · refine ⟨"?partNumber=" ++ toString ((lg.rng.draws 0).int % 10 + 1) ++ "&uploadId="
          ++ rt.uuids 0, { lg with rng := lg.rng.advance },
        { rt with uuids := fun k => rt.uuids (k + 1) },
        by simp [h3, String.append_assoc], by simp [h3], by simp [h3],
        ?_, by simp [h3], by simp [h3], by simp [h3]⟩
      intro _
      exact ⟨(lg.rng.draws 0).int % 10 + 1, by omega, by omega, rfl⟩
    by_cases h4 : op.API = "CreateMultipartUpload"
    · exact ⟨"?uploads", lg, rt, by simp [h4], by simp [h4]⟩
    by_cases h5 : op.API = "CompleteMultipartUpload" ∨ op.API = "AbortMultipartUpload"
    · refine ⟨"?uploadId=" ++ rt.uuids 0, lg, { rt with uuids := fun k => rt.uuids (k + 1) },
        by simp [h1, h2, h3, h4, h5, String.append_assoc],
        fun h => absurd h h1, fun h => absurd h h2, fun h => absurd h h3,
        fun h => absurd h h4, fun _ => rfl, ?_⟩
      intro hn
      rcases h5 with h5 | h5 <;> simp [h5] at hn
    · refine ⟨"", lg, rt, by simp [h1, h2, h3, h4, h5], fun h => absurd h h1,
        fun h => absurd h h2, fun h => absurd h h3, fun h => absurd h h4,
        fun h => absurd h h5, fun _ => rfl⟩
  · simp [buildURI]

/-! ## Targets, serialization and determinism -/

theorem operationCatalog_object_bucket :
    ∀ op ∈ operationCatalog, op.HasObject = true → op.HasBucket = true := by decide

theorem operationCatalog_ListBuckets :
    ∀ op ∈ operationCatalog, op.API = "ListBuckets" →
      op.HasBucket = false ∧ op.HasObject = false := by decide

theorem objectPaths_nonempty : ∀ o ∈ objectPaths, o ≠ "" := by decide

/-- The bucket pool of a constructed generator holds no empty name. -/
theorem NewLogGenerator_buckets_nonempty (mem : Heap) (c : Addr) (rng : Rng) (rt : Runtime) :
    ∀ b ∈ (NewLogGenerator mem c rng rt).1.buckets, b ≠ "" := by
  rw [NewLogGenerator_fst]
  dsimp only
  decide

/-- The target step draws a bucket exactly for an operation that addresses one,
and an object exactly for one that addresses a bucket and an object. -/
theorem GenerateLog_target_shape (lg lg1 : LogGenerator) (op : OperationInfo)
    (bucket object : String) (hne : lg.buckets ≠ []) (hb : ∀ b ∈ lg.buckets, b ≠ "")
    (h : GenerateLog.target lg op = some (bucket, object, lg1)) :
    (bucket ≠ "" ↔ op.HasBucket = true) ∧
    (object ≠ "" ↔ op.HasBucket = true ∧ op.HasObject = true) := by
  unfold GenerateLog.target at h
  obtain ⟨b, hsel, hbm⟩ := selectBucket_total lg hne
  by_cases h1 : op.HasBucket = true
  · by_cases h2 : op.HasObject = true
    · obtain ⟨o, hobj, hom⟩ := generateObjectPath_total { lg with rng := lg.rng.advance } b
      simp only [h1, h2, hsel, hobj, if_true, Option.some.injEq, Prod.mk.injEq] at h
      obtain ⟨rfl, rfl, -⟩ := h
      simp [h1, h2, hb _ hbm, objectPaths_nonempty _ hom]
    · simp only [h1, h2, hsel, if_true, if_false, Bool.false_eq_true, Option.some.injEq,
        Prod.mk.injEq] at h
      obtain ⟨rfl, rfl, -⟩ := h
      simp [h1, h2, hb _ hbm]
  · simp only [h1, if_false, Bool.false_eq_true, Option.some.injEq, Prod.mk.injEq] at h
    obtain ⟨rfl, rfl, -⟩ := h
    simp [h1]

/-- C15. With draws in `[0, 1)`, `GenerateLog` on an engine built by
`NewLogGenerator` selects a catalog operation `op` and returns an event for it
whose `Bucket` is non-empty exactly when `op` addresses a bucket and whose
`Object` is non-empty exactly when `op` addresses an object (which in the
catalog implies that it addresses a bucket); for `ListBuckets` the URI is "/",
`Bucket` and `Object` are empty and the JSON object has no member `bucket` or
`object`. -/
theorem GenerateLog_bucket_object (mem0 mem : Heap) (c : Addr) (rng : Rng)
    (rt0 rt : Runtime) (hu : rng.Unit) :
    ∃ (op : OperationInfo) (entry : LogEntry) (rng1 : Rng) (rt1 : Runtime),
      op ∈ operationCatalog ∧
      (selectOperation (NewLogGenerator mem0 c rng rt0).1).map Prod.fst = some op ∧
      GenerateLog mem (NewLogGenerator mem0 c rng rt0).1 rt
        = some ((entry, none), (NewLogGenerator mem0 c rng1 rt0).1, rt1) ∧
      entry.API = op.API ∧
      (entry.Bucket ≠ "" ↔ op.HasBucket = true) ∧
      (entry.Object ≠ "" ↔ op.HasObject = true) ∧
      (op.HasObject = true → op.HasBucket = true) ∧
      (op.API = "ListBuckets" →
        entry.URI = "/" ∧ entry.Bucket = "" ∧ entry.Object = "" ∧
        (∀ v, ("bucket", v) ∉ entry.ToJSON) ∧ (∀ v, ("object", v) ∉ entry.ToJSON)) := by
  obtain ⟨hb, hpu, hph, hpi⟩ := NewLogGenerator_pools mem0 c rng rt0
  obtain ⟨hlen, hops⟩ := NewLogGenerator_ready mem0 c rng rt0
  have hbn := NewLogGenerator_buckets_nonempty mem0 c rng rt0
  have hcat := NewLogGenerator_operations mem0 c rng rt0
  have hrng : (NewLogGenerator mem0 c rng rt0).1.rng.Unit := by
    rw [NewLogGenerator_rng]
    exact hu
  have hw := fun r => NewLogGenerator_with_rng mem0 c rng r rt0
  generalize (NewLogGenerator mem0 c rng rt0).1 = lg at hb hpu hph hpi hlen hops hbn hcat hrng hw ⊢
  obtain ⟨op, bucket, object, rng2, isError, status, rt1, duration, uri, rng5, rt2, user, ip,
      host, hop, hsel, htgt, -, -, -, huri, -, -, -, -, hgen⟩ :=
    GenerateLog_eq mem lg rt hlen hops hb hpu hph hpi hrng
  rw [hw] at hgen
  rw [hcat] at hop
  obtain ⟨hbk, hobj⟩ := GenerateLog_target_shape { lg with rng := lg.rng.advance } _ op bucket
    object hb hbn htgt
  have hob := operationCatalog_object_bucket op hop
  refine ⟨op, _, _, _, hop, by rw [hsel]; rfl, hgen, rfl, hbk, ?_, hob, ?_⟩
  · show object ≠ "" ↔ op.HasObject = true
    rw [hobj]
    exact ⟨fun h => h.2, fun h => ⟨hob h, h⟩⟩
  · intro hlb
    obtain ⟨h1, h2⟩ := operationCatalog_ListBuckets op hop hlb
    have hb0 : bucket = "" := by
      by_contra hne
      have := hbk.mp hne
      rw [h1] at this
      cases this
    have ho0 : object = "" := by
      by_contra hne
      have := (hobj.mp hne).2
      rw [h2] at this
      cases this
    have huri0 : uri = "/" := by
      simp only [buildURI, h1, Bool.not_false, if_true, Option.some.injEq, Prod.mk.injEq] at huri
      exact huri.1.symm
    subst hb0 ho0 huri0
    refine ⟨rfl, rfl, rfl, ?_, ?_⟩ <;> intro v <;> simp [LogEntry.ToJSON]

/-- The witness of C15: `fullErrorConfig`, every draw 1/2. -/
theorem GenerateLog_bucket_object_witness :
    (constRng (1 / 2) 0).Unit ∧
    ∃ (op : OperationInfo) (entry : LogEntry) (rng1 : Rng) (rt1 : Runtime),
      op ∈ operationCatalog ∧
      (selectOperation (NewLogGenerator (fun _ => fullErrorConfig) 0 (constRng (1 / 2) 0)
        plainRuntime).1).map Prod.fst = some op ∧
      GenerateLog (fun _ => fullErrorConfig)
          (NewLogGenerator (fun _ => fullErrorConfig) 0 (constRng (1 / 2) 0) plainRuntime).1
          plainRuntime
        = some ((entry, none),
            (NewLogGenerator (fun _ => fullErrorConfig) 0 rng1 plainRuntime).1, rt1) ∧
      entry.API = op.API ∧
      (entry.Bucket ≠ "" ↔ op.HasBucket = true) ∧
      (entry.Object ≠ "" ↔ op.HasObject = true) ∧
      (op.HasObject = true → op.HasBucket = true) ∧
      (op.API = "ListBuckets" →
        entry.URI = "/" ∧ entry.Bucket = "" ∧ entry.Object = "" ∧
        (∀ v, ("bucket", v) ∉ entry.ToJSON) ∧ (∀ v, ("object", v) ∉ entry.ToJSON)) :=
  ⟨constRng_unit (1 / 2) 0 (by norm_num) (by norm_num),
    GenerateLog_bucket_object (fun _ => fullErrorConfig) (fun _ => fullErrorConfig) 0
      (constRng (1 / 2) 0) plainRuntime plainRuntime
      (constRng_unit (1 / 2) 0 (by norm_num) (by norm_num))⟩

theorem reverseRuntime_fair : reverseRuntime.Fair := fun _ m => List.reverse_perm m

/-- The status picked from a distribution depends on the runtime only through
the orders in which it visits maps. -/
theorem selectStatusFromDistribution_mapOrder (lg : LogGenerator) (rt rt' : Runtime)
    (dist : GoMap Int ℚ) (h : rt.mapOrder = rt'.mapOrder) :
    (selectStatusFromDistribution lg rt dist).1 = (selectStatusFromDistribution lg rt' dist).1 := by
  unfold selectStatusFromDistribution
  simp only [Runtime.rangeMap, Rng.Float64, h]
  split
  · rfl
  · split <;> rfl

/-- The outcome and status of `determineStatus` depend on the runtime only
through the orders in which it visits maps. -/
theorem determineStatus_mapOrder (mem : Heap) (lg : LogGenerator) (rt rt' : Runtime)
    (problematic : Option ProblematicBucket) (h : rt.mapOrder = rt'.mapOrder) :
    (determineStatus mem lg rt problematic).1 = (determineStatus mem lg rt' problematic).1 := by
  unfold determineStatus
  simp only [Rng.Float64]
  split_ifs <;>
    first
    | rfl
    | (simp only [Prod.mk.injEq, true_and]
       exact selectStatusFromDistribution_mapOrder _ rt rt' _ h)

/-- The outcome flag of `determineStatus` does not depend on the runtime. -/
theorem determineStatus_isError_runtime (mem : Heap) (lg : LogGenerator) (rt rt' : Runtime)
    (problematic : Option ProblematicBucket) :
    (determineStatus mem lg rt problematic).1.1 = (determineStatus mem lg rt' problematic).1.1 := by
  rw [Bool.eq_iff_iff, determineStatus_isError, determineStatus_isError]

/-- The generator that `buildURI` hands back does not depend on the runtime. -/
theorem buildURI_generator (lg lg1 lg2 : LogGenerator) (rt rt' rt1 rt2 : Runtime)
    (op : OperationInfo) (bucket object uri uri' : String)
    (h : buildURI lg rt op bucket object = some (uri, lg1, rt1))
    (h' : buildURI lg rt' op bucket object = some (uri', lg2, rt2)) : lg1 = lg2 := by
  unfold buildURI at h h'
  simp only [Rng.Intn, Runtime.newUUID, show ¬ ((10 : Nat) = 0) by decide, if_false] at h h'
  split_ifs at h h' <;>
    · simp only [Option.some.injEq, Prod.mk.injEq] at h h'
      rw [← h.2.1, ← h'.2.1]

/-- C17 as stated fails: with the same source (every draw 1/25) the default
distribution yields status 404 when the map is visited in its listed order and
403 when it is visited in the reverse order, both in
`selectStatusFromDistribution` and in `determineStatus` on the validated
default configuration. -/
theorem selectStatusFromDistribution_order_counterexample :
    plainRuntime.Fair ∧ reverseRuntime.Fair ∧
    (selectStatusFromDistribution (blankGenerator 0 (constRng (1 / 25) 0)) plainRuntime
      [(404, 40), (500, 30), (504, 20), (403, 10)]).1 = 404 ∧
    (selectStatusFromDistribution (blankGenerator 0 (constRng (1 / 25) 0)) reverseRuntime
      [(404, 40), (500, 30), (504, 20), (403, 10)]).1 = 403 ∧
    (determineStatus (fun _ => (validateAndSetDefaults zeroConfig).1)
      (blankGenerator 0 (constRng (1 / 25) 0)) plainRuntime none).1 = (true, 404) ∧
    (determineStatus (fun _ => (validateAndSetDefaults zeroConfig).1)
      (blankGenerator 0 (constRng (1 / 25) 0)) reverseRuntime none).1 = (true, 403) := by
  refine ⟨plainRuntime_fair, reverseRuntime_fair, ?_, ?_, ?_, ?_⟩
  · norm_num [selectStatusFromDistribution, selectStatusFromDistribution.loop,
      Runtime.rangeMap, plainRuntime, Rng.Float64, blankGenerator, constRng]
  · norm_num [selectStatusFromDistribution, selectStatusFromDistribution.loop,
      Runtime.rangeMap, reverseRuntime, plainRuntime, Rng.Float64, blankGenerator, constRng]
  · rw [validateAndSetDefaults_eq]
    norm_num [determineStatus, selectStatusFromDistribution,
      selectStatusFromDistribution.loop, Runtime.rangeMap, plainRuntime, Rng.Float64,
      blankGenerator, constRng, zeroConfig, defaultErrorStatusDistribution, Rng.advance]
  · rw [validateAndSetDefaults_eq]
    norm_num [determineStatus, selectStatusFromDistribution,
      selectStatusFromDistribution.loop, Runtime.rangeMap, reverseRuntime, plainRuntime,
      Rng.Float64, blankGenerator, constRng, zeroConfig, defaultErrorStatusDistribution,
      Rng.advance]

/-- C17, amended. For a fixed memory and a fixed engine built by
`NewLogGenerator` (its source of draws included), two runs of `GenerateLog`
under any two runtimes return events with the same operation, bucket, object
and duration and leave the same engine; when the two runtimes visit maps in
the same orders, the events also have the same status and level. -/
theorem GenerateLog_deterministic (mem0 mem : Heap) (c : Addr) (rng : Rng)
    (rt0 rt rt' : Runtime) (hu : rng.Unit) :
    ∃ (entry entry' : LogEntry) (rng1 : Rng) (rt1 rt1' : Runtime),
      GenerateLog mem (NewLogGenerator mem0 c rng rt0).1 rt
        = some ((entry, none), (NewLogGenerator mem0 c rng1 rt0).1, rt1) ∧
      GenerateLog mem (NewLogGenerator mem0 c rng rt0).1 rt'
        = some ((entry', none), (NewLogGenerator mem0 c rng1 rt0).1, rt1') ∧
      entry.API = entry'.API ∧ entry.Method = entry'.Method ∧
      entry.Bucket = entry'.Bucket ∧ entry.Object = entry'.Object ∧
      entry.Duration = entry'.Duration ∧
      (rt.mapOrder = rt'.mapOrder →
        entry.Status = entry'.Status ∧ entry.Level = entry'.Level) := by
  obtain ⟨hb, hpu, hph, hpi⟩ := NewLogGenerator_pools mem0 c rng rt0
  obtain ⟨hlen, hops⟩ := NewLogGenerator_ready mem0 c rng rt0
  have hrng : (NewLogGenerator mem0 c rng rt0).1.rng.Unit := by
    rw [NewLogGenerator_rng]
    exact hu
  have hw := fun r => NewLogGenerator_with_rng mem0 c rng r rt0
  generalize (NewLogGenerator mem0 c rng rt0).1 = lg at hb hpu hph hpi hlen hops hrng hw ⊢
  obtain ⟨op, bucket, object, rng2, isError, status, rt1, duration, uri, rng5, rt2, user, ip,
      host, -, hsel, htgt, -, hds, hdur, huri, -, -, -, -, hgen⟩ :=
    GenerateLog_eq mem lg rt hlen hops hb hpu hph hpi hrng
  obtain ⟨op', bucket', object', rng2', isError', status', rt1', duration', uri', rng5', rt2',
      user', ip', host', -, hsel', htgt', -, hds', hdur', huri', -, -, -, -, hgen'⟩ :=
    GenerateLog_eq mem lg rt' hlen hops hb hpu hph hpi hrng
  -- the same operation
  have hop : op = op' := by
    rw [hsel] at hsel'
    simp only [Option.some.injEq, Prod.mk.injEq, and_true] at hsel'
    exact hsel'
  subst hop
  -- the same bucket, object and source
  rw [htgt] at htgt'
  simp only [Option.some.injEq, Prod.mk.injEq] at htgt'
  obtain ⟨hbk, hob, hlg⟩ := htgt'
  have hr2 : rng2 = rng2' := congrArg LogGenerator.rng hlg
  subst hbk hob hr2
  -- the same outcome
  have hisErr : isError = isError' := by
    have h1 := determineStatus_isError_runtime mem { lg with rng := rng2 } rt rt'
      ((mem lg.cfg).GetProblematicBucket bucket)
    rw [hds, hds'] at h1
    exact h1
  subst hisErr
  -- the same duration
  have hd : duration = duration' := by
    rw [hdur] at hdur'
    exact congrArg Prod.fst hdur'
  subst hd
  -- the same engine afterwards
  have hr5 : rng5 = rng5' := by
    have := buildURI_generator _ _ _ rt1 rt1' _ _ op bucket object uri uri' huri huri'
    exact congrArg LogGenerator.rng this
  subst hr5
  rw [hw] at hgen hgen'
  refine ⟨_, _, _, _, _, hgen, hgen', rfl, rfl, rfl, rfl, rfl, ?_⟩
  intro hord
  have h1 := determineStatus_mapOrder mem { lg with rng := rng2 } rt rt'
    ((mem lg.cfg).GetProblematicBucket bucket) hord
  rw [hds, hds'] at h1
  have hst : status = status' := congrArg Prod.snd h1
  subst hst
  exact ⟨rfl, rfl⟩

/-- The witness of C17: `fullErrorConfig`, every draw 1/2, the listed and the
reverse visiting order. -/
theorem GenerateLog_deterministic_witness :
    (constRng (1 / 2) 0).Unit ∧
    ∃ (entry entry' : LogEntry) (rng1 : Rng) (rt1 rt1' : Runtime),
      GenerateLog (fun _ => fullErrorConfig)
          (NewLogGenerator (fun _ => fullErrorConfig) 0 (constRng (1 / 2) 0) plainRuntime).1
          plainRuntime
        = some ((entry, none),
            (NewLogGenerator (fun _ => fullErrorConfig) 0 rng1 plainRuntime).1, rt1) ∧
      GenerateLog (fun _ => fullErrorConfig)
          (NewLogGenerator (fun _ => fullErrorConfig) 0 (constRng (1 / 2) 0) plainRuntime).1
          reverseRuntime
        = some ((entry', none),
            (NewLogGenerator (fun _ => fullErrorConfig) 0 rng1 plainRuntime).1, rt1') ∧
      entry.API = entry'.API ∧ entry.Method = entry'.Method ∧
      entry.Bucket = entry'.Bucket ∧ entry.Object = entry'.Object ∧
      entry.Duration = entry'.Duration ∧
      (plainRuntime.mapOrder = reverseRuntime.mapOrder →
        entry.Status = entry'.Status ∧ entry.Level = entry'.Level) :=
  ⟨constRng_unit (1 / 2) 0 (by norm_num) (by norm_num),
    GenerateLog_deterministic (fun _ => fullErrorConfig) (fun _ => fullErrorConfig) 0
      (constRng (1 / 2) 0) plainRuntime plainRuntime reverseRuntime
      (constRng_unit (1 / 2) 0 (by norm_num) (by norm_num))⟩

/-! ## The process: reload and ticker -/

/-- For a rate between 1 and a thousand million the tick interval is positive
and the ticker accepts it. -/
theorem tickInterval_pos (rate : Int) (h0 : 0 < rate) (h1 : rate ≤ 1000000000) :
    ∃ d, tickInterval rate = some d ∧ 0 < d ∧ NewTicker d = some d := by
  have hne : rate ≠ 0 := ne_of_gt h0
  have hd : Int.tdiv timeSecond rate = timeSecond / rate :=
    Int.tdiv_eq_ediv (by decide) (le_of_lt h0)
  have hpos : 0 < timeSecond / rate := by
    have : 1 ≤ timeSecond / rate := Int.le_ediv_of_mul_le h0 (by simpa [timeSecond] using h1)
    omega
  refine ⟨timeSecond / rate, by simp [tickInterval, hne, hd], hpos, ?_⟩
  simp [NewTicker, not_le.mpr hpos]

/-- The runtime that `NewLogGenerator` hands back visits maps as the one it
was given. -/
theorem initData_loop_mapOrder (n i : Nat) (users : List String) (rt : Runtime) :
    (initData.loop n i users rt).2.mapOrder = rt.mapOrder := by
  induction n generalizing i users rt with
  | zero => rfl
  | succ n ih =>
    simp only [initData.loop, generateUserID]
    rw [ih]

theorem NewLogGenerator_snd_fair (mem : Heap) (c : Addr) (rng : Rng) (rt : Runtime)
    (h : rt.Fair) : (NewLogGenerator mem c rng rt).2.Fair := by
  have : (NewLogGenerator mem c rng rt).2.mapOrder = rt.mapOrder := by
    simp only [NewLogGenerator, initData]
    exact initData_loop_mapOrder 20 0 _ rt
  intro k m
  rw [this]
  exact h k m

theorem LoadConfig_constLoader (config : Config) (path : String) :
    LoadConfig (constLoader config) path = .ok (validateAndSetDefaults config).1 := by
  simp [LoadConfig, constLoader, validateAndSetDefaults_eq]

theorem weightedErrorConfig_validated :
    (validateAndSetDefaults weightedErrorConfig).1 = weightedErrorConfig := by
  rw [validateAndSetDefaults_eq]
  simp [weightedErrorConfig, fullErrorConfig]

theorem reloadedConfig_validated :
    (validateAndSetDefaults reloadedConfig).1 = reloadedConfig := by
  rw [validateAndSetDefaults_eq]
  simp [reloadedConfig, fullErrorConfig]

/-- C19 fails on the code. The process starts from the validated configuration
`weightedErrorConfig` (distribution `500: 100`, weight 100 for `GetObject`);
the file then holds `reloadedConfig` (distribution `503: 100`, no weights) and
the reloading goroutine runs `ReloadConfig`. Before anything is sent on or
received from `reloadCh`, a tick of the old engine produces an event with
status 503, a status only the new configuration has, while the engine's weight
for `GetObject` is still the old 100 (the new configuration gives 1). -/
theorem Process_old_engine_reads_new_config :
    ∃ (p0 p1 p2 : Process) (entry : LogEntry),
      Process.start (constLoader weightedErrorConfig) "config.yaml" (fun _ => zeroConfig) 0
        (constRng (1 / 2) 0) plainRuntime = .next p0 ∧
      p0.mem p0.cfg = weightedErrorConfig ∧
      Process.sighup (constLoader reloadedConfig) "config.yaml" p0 = .next p1 ∧
      p1.mem p1.cfg = reloadedConfig ∧
      p1.reloadCh = [] ∧ p1.currentGen = p0.currentGen ∧
      p1.currentGen.operationWeights[0]? = some 100 ∧
      (initOperations p1.mem (blankGenerator p1.cfg (constRng (1 / 2) 0))).operationWeights[0]?
        = some 1 ∧
      Process.tick p1 = .next p2 ∧ p2.written = [entry] ∧ entry.Status = 503 ∧
      (503 : Int) ∉ weightedErrorConfig.Generator.Defaults.ErrorStatusDistribution.keys := by
  have hfair := NewLogGenerator_snd_fair
    (Function.update (fun _ => zeroConfig) 0 weightedErrorConfig) 0 (constRng (1 / 2) 0)
    plainRuntime plainRuntime_fair
  obtain ⟨entry, rng1, rt1, hgen, hstatus, -⟩ :=
    GenerateLog_single_status
      (Function.update (fun _ => zeroConfig) 0 weightedErrorConfig)
      (Function.update (Function.update (fun _ => zeroConfig) 0 weightedErrorConfig) 0
        reloadedConfig) 0 (constRng (1 / 2) 0) plainRuntime
      (NewLogGenerator (Function.update (fun _ => zeroConfig) 0 weightedErrorConfig) 0
        (constRng (1 / 2) 0) plainRuntime).2 503 100
      (by simp [reloadedConfig, fullErrorConfig]) (by simp [reloadedConfig])
      (by simp [reloadedConfig])
      (constRng_unit (1 / 2) 0 (by norm_num) (by norm_num)) hfair
  refine ⟨
    { mem := Function.update (fun _ => zeroConfig) 0 weightedErrorConfig, cfg := 0,
      reloadCh := [], sending := false,
      currentGen := (NewLogGenerator (Function.update (fun _ => zeroConfig) 0
        weightedErrorConfig) 0 (constRng (1 / 2) 0) plainRuntime).1,
      period := 100000000,
      rt := (NewLogGenerator (Function.update (fun _ => zeroConfig) 0
        weightedErrorConfig) 0 (constRng (1 / 2) 0) plainRuntime).2,
      written := [] },
    { mem := Function.update (Function.update (fun _ => zeroConfig) 0 weightedErrorConfig) 0
        reloadedConfig, cfg := 0,
      reloadCh := [], sending := true,
      currentGen := (NewLogGenerator (Function.update (fun _ => zeroConfig) 0
        weightedErrorConfig) 0 (constRng (1 / 2) 0) plainRuntime).1,
      period := 100000000,
      rt := (NewLogGenerator (Function.update (fun _ => zeroConfig) 0
        weightedErrorConfig) 0 (constRng (1 / 2) 0) plainRuntime).2,
      written := [] },
    { mem := Function.update (Function.update (fun _ => zeroConfig) 0 weightedErrorConfig) 0
        reloadedConfig, cfg := 0,
      reloadCh := [], sending := true,
      currentGen := (NewLogGenerator (Function.update (fun _ => zeroConfig) 0
        weightedErrorConfig) 0 rng1 plainRuntime).1,
      period := 100000000,
      rt := rt1,
      written := [entry] },
    entry, ?_, ?_, ?_, ?_, rfl, rfl, ?_, ?_, ?_, rfl, hstatus, ?_⟩
  · have hrate : weightedErrorConfig.Generator.Rate = 10 := rfl
    have htick : tickInterval 10 = some 100000000 := by decide
    have hnew : NewTicker 100000000 = some 100000000 := by decide
    simp [Process.start, LoadConfig_constLoader, weightedErrorConfig_validated, hrate, htick,
      hnew]
  · simp
  · simp [Process.sighup, ReloadConfig, LoadConfig_constLoader, reloadedConfig_validated]
  · simp
  · rw [NewLogGenerator_operationWeights, initOperations_operationWeights]
    simp [operationCatalog, blankGenerator, weightedErrorConfig, GoMap.index]
  · rw [initOperations_operationWeights]
    simp [operationCatalog, blankGenerator, reloadedConfig, fullErrorConfig, GoMap.index]
  · simp only [Process.tick, hgen, List.nil_append]
  · simp [weightedErrorConfig, fullErrorConfig, GoMap.keys]

theorem fastConfig_validated :
    (validateAndSetDefaults fastConfig).1 =
      { (validateAndSetDefaults zeroConfig).1 with Generator.Rate := 2000000000 } := by
  rw [validateAndSetDefaults_eq, validateAndSetDefaults_eq]
  simp [fastConfig, zeroConfig]

/-- C20 fails on the code. The configuration `fastConfig` passes
`validateAndSetDefaults` without error and keeps its `Rate` of 2000000000; the
interval `time.Second / Rate` is then 0, `time.NewTicker` panics on it, and so
does the start of `main`. -/
theorem tickInterval_zero_at_fast_rate :
    (validateAndSetDefaults fastConfig).2 = none ∧
    (validateAndSetDefaults fastConfig).1.Generator.Rate = 2000000000 ∧
    0 < (validateAndSetDefaults fastConfig).1.Generator.Rate ∧
    tickInterval (validateAndSetDefaults fastConfig).1.Generator.Rate = some 0 ∧
    NewTicker 0 = none ∧
    Process.start (constLoader fastConfig) "config.yaml" (fun _ => zeroConfig) 0
      (constRng (1 / 2) 0) plainRuntime = .panics := by
  have hrate : (validateAndSetDefaults fastConfig).1.Generator.Rate = 2000000000 := by
    rw [fastConfig_validated]
  have htick : tickInterval 2000000000 = some 0 := by decide
  have hnew : NewTicker 0 = none := by decide
  refine ⟨rfl, hrate, by rw [hrate]; decide, by rw [hrate]; exact htick, hnew, ?_⟩
  simp [Process.start, LoadConfig_constLoader, hrate, htick, hnew]

end S3LogGen
